import Mathlib

/-!
# The rospack command dispatcher

A shallow embedding of `rospack_run` from `src/rospack_cmdline.cpp`.

* The parsed option map (`po::variables_map`) is the structure `VariablesMap`:
  a string option is `none` when `vm.count(..)` is zero, a flag is a `Bool`.
* The `Rosstackage` object is a record of the answers its methods give.  Within
  one run of `rospack_run` every answering method is called at most once, so a
  record of answers describes every behaviour of the object during a run.
  An out-parameter is returned next to the method's `bool`.
* Every call made on the object is recorded, in order, in `Outcome.calls`;
  `getName` (a constant accessor) is not recorded.
* `getenv("ROS_LANG_DISABLE")` and the free function `parse_compiler_flags`
  of `utils.h` are the two fields of `Environment`.
-/

namespace rospack

/-! ## Data model -/

/-- The two tools that share the dispatcher: `Rospack` and `Rosstack`. -/
inductive Persona where
  | PACKAGE
  | STACK
  deriving DecidableEq, Repr

/-- Modelled from the spec: the macro `ROSPACK_NAME` of `rospack/rospack.h`,
which is not part of the sources at hand; it is the name the package persona
answers to the identity query. -/
def ROSPACK_NAME : String := "rospack"

/-- Modelled from the spec: the macro `ROSSTACK_NAME` of `rospack/rospack.h`,
which is not part of the sources at hand; it is the name the stack persona
answers to the identity query. -/
def ROSSTACK_NAME : String := "rosstack"

/-- The parsed command line, `po::variables_map vm` after `parse_args`. -/
structure VariablesMap where
  command : Option String
  package : Option String
  target : Option String
  deps_only : Bool
  lang : Option String
  attrib : Option String
  top : Option String
  length : Option String
  zombie_only : Bool
  quiet : Bool
  deriving DecidableEq, Repr

/-- The answers of the `rospack::Rosstackage& rp` object.  A method with an
out-parameter answers with its `bool` and the final value of the out-parameter. -/
structure Rosstackage where
  persona : Persona
  inStackage : Bool × String
  getSearchPathFromEnv : Bool × List String
  profile : List String → Bool → Int → Bool × List String
  find : String → Bool × String
  list : List (String × String)
  listDuplicates : List String
  depsOn : String → Bool → Bool × List String
  deps : String → Bool → Bool × List String
  depsManifests : String → Bool → Bool × List String
  depsMsgSrv : String → Bool → Bool × List String
  depsIndent : String → Bool → Bool × List String
  depsWhy : String → String → Bool × String
  rosdeps : String → Bool → Bool × List String
  vcs : String → Bool → Bool × List String
  exports : String → String → String → Bool → Bool × List String
  plugins : String → String → String → Bool × List String
  contents : String → Bool × List String
  contains : String → Bool × (String × String)

/-- What the dispatcher uses besides `rp`: the value of the environment variable
`ROS_LANG_DISABLE` (`none` when `getenv` returns a null pointer) and the token
filter `parse_compiler_flags(instring, token, select, last, outstring)` of
`utils.h`, given as the function from its four inputs to `outstring`. -/
structure Environment where
  ROS_LANG_DISABLE : Option String
  parse_compiler_flags : String → String → Bool → Bool → String

/-- One call made on `rp`, with its input arguments. -/
inductive Call where
  | setQuiet (quiet : Bool)
  | log_error (msg : String)
  | inStackage
  | usage
  | getSearchPathFromEnv
  | profile (search_path : List String) (zombie_only : Bool) (length : Int)
  | crawl (search_path : List String) (force : Bool)
  | find (name : String)
  | list
  | listDuplicates
  | depsOn (name : String) (direct : Bool)
  | deps (name : String) (direct : Bool)
  | depsManifests (name : String) (direct : Bool)
  | depsMsgSrv (name : String) (direct : Bool)
  | depsIndent (name : String) (direct : Bool)
  | depsWhy (src : String) (target : String)
  | rosdeps (name : String) (direct : Bool)
  | vcs (name : String) (direct : Bool)
  | exports (name : String) (lang : String) (attrib : String) (deps_only : Bool)
  | plugins (name : String) (attrib : String) (top : String)
  | contents (name : String)
  | contains (name : String)
  deriving DecidableEq, Repr

/-- The result of one run: the returned `bool`, the `output` string after the
run, and the calls made on `rp` in the order they were made. -/
structure Outcome where
  ret : Bool
  output : String
  calls : List Call
  deriving DecidableEq, Repr

/-! ## The two usage texts -/

/-- The text returned by `Rospack::usage()`. -/
def Rospack_usage : String :=
  "USAGE: rospack <command> [options] [package]\n" ++
  "  Allowed commands:\n" ++
  "    help\n" ++
  "    find [package]\n" ++
  "    list\n" ++
  "    list-names\n" ++
  "    list-duplicates\n" ++
  "    langs\n" ++
  "    depends [package] (alias: deps)\n" ++
  "    depends-manifests [package] (alias: deps-manifests)\n" ++
  "    depends-msgsrv [package] (alias: deps-msgsrv)\n" ++
  "    depends1 [package] (alias: deps1)\n" ++
  "    depends-indent [package] (alias: deps-indent)\n" ++
  "    depends-why --target=<target> [package] (alias: deps-why)\n" ++
  "    rosdep [package] (alias: rosdeps)\n" ++
  "    rosdep0 [package] (alias: rosdeps0)\n" ++
  "    vcs [package]\n" ++
  "    vcs0 [package]\n" ++
  "    depends-on [package]\n" ++
  "    depends-on1 [package]\n" ++
  "    export [--deps-only] --lang=<lang> --attrib=<attrib> [package]\n" ++
  "    plugins --attrib=<attrib> [--top=<toppkg>] [package]\n" ++
  "    cflags-only-I [--deps-only] [package]\n" ++
  "    cflags-only-other [--deps-only] [package]\n" ++
  "    libs-only-L [--deps-only] [package]\n" ++
  "    libs-only-l [--deps-only] [package]\n" ++
  "    libs-only-other [--deps-only] [package]\n" ++
  "    profile [--length=<length>] [--zombie-only]\n" ++
  "  Extra options:\n" ++
  "    -q     Quiets error reports.\n\n" ++
  " If [package] is omitted, the current working directory\n" ++
  " is used (if it contains a manifest.xml).\n\n"

/-- The text returned by `Rosstack::usage()`. -/
def Rosstack_usage : String :=
  "USAGE: rosstack [options] <command> [stack]\n" ++
  "  Allowed commands:\n" ++
  "    help\n" ++
  "    find [stack]\n" ++
  "    contents [stack]\n" ++
  "    list\n" ++
  "    list-names\n" ++
  "    depends [stack] (alias: deps)\n" ++
  "    depends-manifests [stack] (alias: deps-manifests)\n" ++
  "    depends1 [stack] (alias: deps1)\n" ++
  "    depends-indent [stack] (alias: deps-indent)\n" ++
  "    depends-why --target=<target> [stack] (alias: deps-why)\n" ++
  "    depends-on [stack]\n" ++
  "    depends-on1 [stack]\n" ++
  "    contains [package]\n" ++
  "    contains-path [package]\n" ++
  "    profile [--length=<length>] \n\n" ++
  " If [stack] is omitted, the current working directory\n" ++
  " is used (if it contains a stack.xml).\n\n"

/-- The identity query `rp.getName()`. -/
def Rosstackage.getName (rp : Rosstackage) : String :=
  match rp.persona with
  | Persona.PACKAGE => ROSPACK_NAME
  | Persona.STACK => ROSSTACK_NAME

/-- The virtual method `rp.usage()`: `Rospack::usage` or `Rosstack::usage`. -/
def Rosstackage.usage (rp : Rosstackage) : String :=
  match rp.persona with
  | Persona.PACKAGE => Rospack_usage
  | Persona.STACK => Rosstack_usage

/-! ## Library functions the dispatcher calls -/

/-- The test `s.size()` of a `std::string`; only its being zero is ever used. -/
def size (s : String) : Nat := s.length

/-- The C library predicate `isspace` in the "C" locale. -/
def isspace (c : Char) : Bool :=
  c == ' ' || c == '\t' || c == '\n' || c == '\x0b' || c == '\x0c' || c == '\r'

/-- The digits read by `atoi`: the value of the longest run of decimal digits
at the head of the text, starting from the accumulator. -/
def atoi_digits : List Char → Nat → Nat
  | [], acc => acc
  | c :: cs, acc =>
    if c.isDigit then atoi_digits cs (acc * 10 + (c.toNat - '0'.toNat)) else acc

/-- Skipping of leading white space by `atoi`. -/
def atoi_skip : List Char → List Char
  | [] => []
  | c :: cs => if isspace c then atoi_skip cs else c :: cs

/-- The clamp of `strtol` to the range of a 64-bit `long`. -/
def clamp_long (v : Int) : Int :=
  if v < -(2 ^ 63 : Int) then -(2 ^ 63 : Int)
  else if v > (2 ^ 63 : Int) - 1 then (2 ^ 63 : Int) - 1
  else v

/-- The conversion of a `long` to a 32-bit `int` (two's complement wrap). -/
def to_int32 (v : Int) : Int :=
  (v + 2 ^ 31) % 2 ^ 32 - 2 ^ 31

/-- The C library function `atoi` (as `(int) strtol(s, NULL, 10)` on an LP64
platform): leading white space, an optional sign, then decimal digits; text
without digits gives 0. -/
def atoi (s : String) : Int :=
  match atoi_skip s.toList with
  | '-' :: cs => to_int32 (clamp_long (-(atoi_digits cs 0 : Int)))
  | '+' :: cs => to_int32 (clamp_long (atoi_digits cs 0 : Int))
  | cs => to_int32 (clamp_long (atoi_digits cs 0 : Int))

/-- The tokens of `boost::split(result, input, pred, boost::token_compress_on)`:
the pieces of the input between maximal runs of separator characters; a run at
the very start or end leaves an empty piece there.  `cur` is the piece being
read (reversed) and `inSep` tells whether the last character was a separator. -/
def boost_split_go (pred : Char → Bool) : List Char → Bool → List Char → List String
  | cur, _, [] => [String.mk cur.reverse]
  | cur, inSep, c :: cs =>
    if pred c then
      if inSep then boost_split_go pred cur true cs
      else String.mk cur.reverse :: boost_split_go pred [] true cs
    else boost_split_go pred (c :: cur) false cs

/-- The call `boost::split(v, input, boost::is_any_of(seps), boost::token_compress_on)`. -/
def boost_split (input : String) (seps : String) : List String :=
  boost_split_go (fun c => seps.toList.contains c) [] false input.toList

/-- The loop of `langs` that erases from `deps` every element found in
`disable_langs` (`std::find` on each element, `erase` when found). -/
def erase_disabled (disable_langs : List String) : List String → List String
  | [] => []
  | it :: rest =>
    if disable_langs.contains it then erase_disabled disable_langs rest
    else it :: erase_disabled disable_langs rest

/-- The loop `for(it ...) output.append(*it + sep)`. -/
def append_each (sep : String) (output : String) (items : List String) : String :=
  items.foldl (fun acc it => acc ++ (it ++ sep)) output

/-- The loop of `list`: `output.append(it->first + " " + it->second + "\n")`. -/
def append_pairs (output : String) (items : List (String × String)) : String :=
  items.foldl (fun acc it => acc ++ (it.1 ++ " " ++ it.2 ++ "\n")) output

/-- The loop of `list-names`: `output.append(it->first + "\n")`. -/
def append_firsts (output : String) (items : List (String × String)) : String :=
  items.foldl (fun acc it => acc ++ (it.1 ++ "\n")) output

/-- An error exit: `rp.log_error(msg); return false;`. -/
def error_exit (calls : List Call) (output : String) (msg : String) : Outcome :=
  ⟨false, output, calls ++ [Call.log_error msg]⟩

/-! ## The dispatcher

`rospack_run` is one long function; it is given here block by block, one
definition for each `// COMMAND:` block of the source, and the chain of
`if`/`else if` that selects a block. -/

/-- The local variables of `rospack_run` (lines 58 to 68 of the source). -/
structure Locals where
  command : String
  package : String
  package_given : Bool
  deps_only : Bool
  lang : String
  attrib : String
  top : String
  target : String
  zombie_only : Bool
  length_str : String
  length : Int

/-- The values the locals get from `vm` (lines 69 to 119): a local keeps its
initial value when its option is absent; `package` is then whatever
`rp.inStackage` leaves in it, and `length` is `-1` or `20`. -/
def read_options (rp : Rosstackage) (vm : VariablesMap) : Locals where
  command := match vm.command with
    | some c => c
    | none => ""
  package := match vm.package with
    | some p => p
    | none => rp.inStackage.2
  package_given := vm.package.isSome
  deps_only := vm.deps_only
  lang := vm.lang.getD ""
  attrib := vm.attrib.getD ""
  top := vm.top.getD ""
  target := vm.target.getD ""
  zombie_only := vm.zombie_only
  length_str := vm.length.getD ""
  length := match vm.length with
    | some length_str => atoi length_str
    | none => if vm.zombie_only then -1 else 20

/-- The block `COMMAND: help` (lines 121 to 132). -/
def cmd_help (rp : Rosstackage) (l : Locals) (calls : List Call)
    (output : String) : Outcome :=
  if l.package_given || size l.top != 0 || size l.length_str != 0 ||
      l.zombie_only || l.deps_only || size l.lang != 0 || size l.attrib != 0 then
    error_exit calls output "invalid option(s) given"
  else ⟨true, output ++ rp.usage, calls ++ [Call.usage]⟩

/-- The block `COMMAND: profile` (lines 138 to 155); the collaborator returning
`true` makes the run fail. -/
def cmd_profile (rp : Rosstackage) (l : Locals) (search_path : List String)
    (calls : List Call) (output : String) : Outcome :=
  if l.package_given || size l.target != 0 || size l.top != 0 ||
      l.deps_only || size l.lang != 0 || size l.attrib != 0 then
    error_exit calls output "invalid option(s) given"
  else
    let r := rp.profile search_path l.zombie_only l.length
    let c3 := calls ++ [Call.profile search_path l.zombie_only l.length]
    if r.1 then ⟨false, output, c3⟩
    else ⟨true, append_each "\n" output r.2, c3⟩

/-- The block `COMMAND: find [package]` (lines 160 to 179). -/
def cmd_find (rp : Rosstackage) (l : Locals) (calls : List Call)
    (output : String) : Outcome :=
  if size l.package == 0 then error_exit calls output "no package/stack given"
  else if size l.target != 0 || size l.top != 0 || size l.length_str != 0 ||
      l.zombie_only || l.deps_only || size l.lang != 0 || size l.attrib != 0 then
    error_exit calls output "invalid option(s) given"
  else
    let r := rp.find l.package
    let c4 := calls ++ [Call.find l.package]
    if !r.1 then ⟨false, output, c4⟩
    else ⟨true, output ++ (r.2 ++ "\n"), c4⟩

/-- The block `COMMAND: list` (lines 180 to 198). -/
def cmd_list (rp : Rosstackage) (l : Locals) (calls : List Call)
    (output : String) : Outcome :=
  if l.package_given || size l.target != 0 || size l.top != 0 || size l.length_str != 0 ||
      l.zombie_only || l.deps_only || size l.lang != 0 || size l.attrib != 0 then
    error_exit calls output "invalid option(s) given"
  else
    ⟨true, append_pairs output rp.list, calls ++ [Call.list]⟩

/-- The block `COMMAND: list-names` (lines 199 to 217). -/
def cmd_list_names (rp : Rosstackage) (l : Locals) (calls : List Call)
    (output : String) : Outcome :=
  if l.package_given || size l.target != 0 || size l.top != 0 || size l.length_str != 0 ||
      l.zombie_only || l.deps_only || size l.lang != 0 || size l.attrib != 0 then
    error_exit calls output "invalid option(s) given"
  else
    ⟨true, append_firsts output rp.list, calls ++ [Call.list]⟩

/-- The block `COMMAND: list-duplicates` (lines 218 to 237). -/
def cmd_list_duplicates (rp : Rosstackage) (l : Locals) (calls : List Call)
    (output : String) : Outcome :=
  if l.package_given || size l.target != 0 || size l.top != 0 || size l.length_str != 0 ||
      l.zombie_only || l.deps_only || size l.lang != 0 || size l.attrib != 0 then
    error_exit calls output "invalid option(s) given"
  else
    ⟨true, append_each "\n" output rp.listDuplicates, calls ++ [Call.listDuplicates]⟩

/-- The block `COMMAND: langs` (lines 238 to 273). -/
def cmd_langs (rp : Rosstackage) (env : Environment) (l : Locals)
    (calls : List Call) (output : String) : Outcome :=
  if l.package_given || size l.target != 0 || size l.top != 0 || size l.length_str != 0 ||
      l.zombie_only || l.deps_only || size l.lang != 0 || size l.attrib != 0 then
    error_exit calls output "invalid option(s) given"
  else
    let r := rp.depsOn "roslang" true
    let c4 := calls ++ [Call.depsOn "roslang" true]
    if !r.1 then ⟨false, output, c4⟩
    else
      let deps : List String := match env.ROS_LANG_DISABLE with
        | some ros_lang_disable => erase_disabled (boost_split ros_lang_disable ":") r.2
        | none => r.2
      ⟨true, append_each " " output deps ++ "\n", c4⟩

/-- The block `COMMAND: depends [package] (alias: deps)` (lines 274 to 297), which
also serves `depends1` and `deps1`. -/
def cmd_depends (rp : Rosstackage) (l : Locals) (calls : List Call)
    (output : String) : Outcome :=
  if size l.package == 0 then error_exit calls output "no package/stack given"
  else if size l.target != 0 || size l.top != 0 || size l.length_str != 0 ||
      l.zombie_only || l.deps_only || size l.lang != 0 || size l.attrib != 0 then
    error_exit calls output "invalid option(s) given"
  else
    let r := rp.deps l.package (l.command == "depends1" || l.command == "deps1")
    let c4 := calls ++ [Call.deps l.package (l.command == "depends1" || l.command == "deps1")]
    if !r.1 then ⟨false, output, c4⟩
    else ⟨true, append_each "\n" output r.2, c4⟩

/-- The block `COMMAND: depends-manifests [package]` (lines 298 to 321). -/
def cmd_depends_manifests (rp : Rosstackage) (l : Locals) (calls : List Call)
    (output : String) : Outcome :=
  if size l.package == 0 then error_exit calls output "no package/stack given"
  else if size l.target != 0 || size l.top != 0 || size l.length_str != 0 ||
      l.zombie_only || l.deps_only || size l.lang != 0 || size l.attrib != 0 then
    error_exit calls output "invalid option(s) given"
  else
    let r := rp.depsManifests l.package false
    let c4 := calls ++ [Call.depsManifests l.package false]
    if !r.1 then ⟨false, output, c4⟩
    else ⟨true, append_each " " output r.2 ++ "\n", c4⟩

/-- The block `COMMAND: depends-msgsrv [package]` (lines 322 to 346). -/
def cmd_depends_msgsrv (rp : Rosstackage) (l : Locals) (calls : List Call)
    (output : String) : Outcome :=
  if size l.package == 0 then error_exit calls output "no package given"
  else if size l.target != 0 || size l.top != 0 || size l.length_str != 0 ||
      l.zombie_only || l.deps_only || size l.lang != 0 || size l.attrib != 0 then
    error_exit calls output "invalid option(s) given"
  else
    let r := rp.depsMsgSrv l.package false
    let c4 := calls ++ [Call.depsMsgSrv l.package false]
    if !r.1 then ⟨false, output, c4⟩
    else ⟨true, append_each " " output r.2 ++ "\n", c4⟩

/-- The block `COMMAND: depends-indent [package]` (lines 347 to 369). -/
def cmd_depends_indent (rp : Rosstackage) (l : Locals) (calls : List Call)
    (output : String) : Outcome :=
  if size l.package == 0 then error_exit calls output "no package/stack given"
  else if size l.target != 0 || size l.top != 0 || size l.length_str != 0 ||
      l.zombie_only || l.deps_only || size l.lang != 0 || size l.attrib != 0 then
    error_exit calls output "invalid option(s) given"
  else
    let r := rp.depsIndent l.package false
    let c4 := calls ++ [Call.depsIndent l.package false]
    if !r.1 then ⟨false, output, c4⟩
    else ⟨true, append_each "\n" output r.2, c4⟩

/-- The block `COMMAND: depends-why [package]` (lines 370 to 389). -/
def cmd_depends_why (rp : Rosstackage) (l : Locals) (calls : List Call)
    (output : String) : Outcome :=
  if size l.package == 0 || size l.target == 0 then
    error_exit calls output "no package/stack or target given"
  else if size l.top != 0 || size l.length_str != 0 ||
      l.zombie_only || l.deps_only || size l.lang != 0 || size l.attrib != 0 then
    error_exit calls output "invalid option(s) given"
  else
    let r := rp.depsWhy l.package l.target
    let c4 := calls ++ [Call.depsWhy l.package l.target]
    if !r.1 then ⟨false, output, c4⟩
    else ⟨true, output ++ r.2, c4⟩

/-- The block `COMMAND: rosdep [package]` and `rosdep0` (lines 390 to 415). -/
def cmd_rosdep (rp : Rosstackage) (l : Locals) (calls : List Call)
    (output : String) : Outcome :=
  if size l.package == 0 then error_exit calls output "no package given"
  else if size l.target != 0 || size l.top != 0 || size l.length_str != 0 ||
      l.zombie_only || l.deps_only || size l.lang != 0 || size l.attrib != 0 then
    error_exit calls output "invalid option(s) given"
  else
    let r := rp.rosdeps l.package (l.command == "rosdep0" || l.command == "rosdeps0")
    let c4 := calls ++ [Call.rosdeps l.package (l.command == "rosdep0" || l.command == "rosdeps0")]
    if !r.1 then ⟨false, output, c4⟩
    else ⟨true, append_each "\n" output r.2, c4⟩

/-- The block `COMMAND: vcs [package]` and `vcs0` (lines 416 to 440). -/
def cmd_vcs (rp : Rosstackage) (l : Locals) (calls : List Call)
    (output : String) : Outcome :=
  if size l.package == 0 then error_exit calls output "no package given"
  else if size l.target != 0 || size l.top != 0 || size l.length_str != 0 ||
      l.zombie_only || l.deps_only || size l.lang != 0 || size l.attrib != 0 then
    error_exit calls output "invalid option(s) given"
  else
    let r := rp.vcs l.package (l.command == "vcs0")
    let c4 := calls ++ [Call.vcs l.package (l.command == "vcs0")]
    if !r.1 then ⟨false, output, c4⟩
    else ⟨true, append_each "\n" output r.2, c4⟩

/-- The block `COMMAND: depends-on [package]` and `depends-on1` (lines 441 to 464). -/
def cmd_depends_on (rp : Rosstackage) (l : Locals) (calls : List Call)
    (output : String) : Outcome :=
  if size l.package == 0 then error_exit calls output "no package/stack given"
  else if size l.target != 0 || size l.top != 0 || size l.length_str != 0 ||
      l.zombie_only || l.deps_only || size l.lang != 0 || size l.attrib != 0 then
    error_exit calls output "invalid option(s) given"
  else
    let r := rp.depsOn l.package (l.command == "depends-on1")
    let c4 := calls ++ [Call.depsOn l.package (l.command == "depends-on1")]
    if !r.1 then ⟨false, output, c4⟩
    else ⟨true, append_each "\n" output r.2, c4⟩

/-- The block `COMMAND: export` (lines 465 to 487). -/
def cmd_export (rp : Rosstackage) (l : Locals) (calls : List Call)
    (output : String) : Outcome :=
  if size l.package == 0 || size l.lang == 0 || size l.attrib == 0 then
    error_exit calls output "no package / lang / attrib given"
  else if size l.target != 0 || size l.top != 0 || size l.length_str != 0 || l.zombie_only then
    error_exit calls output "invalid option(s) given"
  else
    let r := rp.exports l.package l.lang l.attrib l.deps_only
    let c4 := calls ++ [Call.exports l.package l.lang l.attrib l.deps_only]
    if !r.1 then ⟨false, output, c4⟩
    else ⟨true, append_each " " output r.2 ++ "\n", c4⟩

/-- The block `COMMAND: plugins` (lines 488 to 509). -/
def cmd_plugins (rp : Rosstackage) (l : Locals) (calls : List Call)
    (output : String) : Outcome :=
  if size l.package == 0 || size l.attrib == 0 then
    error_exit calls output "no package / attrib given"
  else if size l.target != 0 || size l.length_str != 0 || l.zombie_only then
    error_exit calls output "invalid option(s) given"
  else
    let r := rp.plugins l.package l.attrib l.top
    let c4 := calls ++ [Call.plugins l.package l.attrib l.top]
    if !r.1 then ⟨false, output, c4⟩
    else ⟨true, append_each "\n" output r.2, c4⟩

/-- The block `COMMAND: cflags-only-I` (lines 510 to 535). -/
def cmd_cflags_only_I (rp : Rosstackage) (env : Environment) (l : Locals)
    (calls : List Call) (output : String) : Outcome :=
  if size l.package == 0 then error_exit calls output "no package given"
  else if size l.target != 0 || size l.top != 0 || size l.length_str != 0 || l.zombie_only then
    error_exit calls output "invalid option(s) given"
  else
    let r := rp.exports l.package "cpp" "cflags" l.deps_only
    let c4 := calls ++ [Call.exports l.package "cpp" "cflags" l.deps_only]
    if !r.1 then ⟨false, output, c4⟩
    else
      let combined := append_each " " "" r.2
      let result := env.parse_compiler_flags combined "-I" true false
      ⟨true, output ++ (result ++ "\n"), c4⟩

/-- The block `COMMAND: cflags-only-other` (lines 536 to 561). -/
def cmd_cflags_only_other (rp : Rosstackage) (env : Environment) (l : Locals)
    (calls : List Call) (output : String) : Outcome :=
  if size l.package == 0 then error_exit calls output "no package given"
  else if size l.target != 0 || size l.top != 0 || size l.length_str != 0 || l.zombie_only then
    error_exit calls output "invalid option(s) given"
  else
    let r := rp.exports l.package "cpp" "cflags" l.deps_only
    let c4 := calls ++ [Call.exports l.package "cpp" "cflags" l.deps_only]
    if !r.1 then ⟨false, output, c4⟩
    else
      let combined := append_each " " "" r.2
      let result := env.parse_compiler_flags combined "-I" false false
      ⟨true, output ++ (result ++ "\n"), c4⟩

/-- The block `COMMAND: libs-only-L` (lines 562 to 587). -/
def cmd_libs_only_L (rp : Rosstackage) (env : Environment) (l : Locals)
    (calls : List Call) (output : String) : Outcome :=
  if size l.package == 0 then error_exit calls output "no package given"
  else if size l.target != 0 || size l.top != 0 || size l.length_str != 0 || l.zombie_only then
    error_exit calls output "invalid option(s) given"
  else
    let r := rp.exports l.package "cpp" "lflags" l.deps_only
    let c4 := calls ++ [Call.exports l.package "cpp" "lflags" l.deps_only]
    if !r.1 then ⟨false, output, c4⟩
    else
      let combined := append_each " " "" r.2
      let result := env.parse_compiler_flags combined "-L" true false
      ⟨true, output ++ (result ++ "\n"), c4⟩

/-- The block `COMMAND: libs-only-l` (lines 588 to 613). -/
def cmd_libs_only_l (rp : Rosstackage) (env : Environment) (l : Locals)
    (calls : List Call) (output : String) : Outcome :=
  if size l.package == 0 then error_exit calls output "no package given"
  else if size l.target != 0 || size l.top != 0 || size l.length_str != 0 || l.zombie_only then
    error_exit calls output "invalid option(s) given"
  else
    let r := rp.exports l.package "cpp" "lflags" l.deps_only
    let c4 := calls ++ [Call.exports l.package "cpp" "lflags" l.deps_only]
    if !r.1 then ⟨false, output, c4⟩
    else
      let combined := append_each " " "" r.2
      let result := env.parse_compiler_flags combined "-l" true true
      ⟨true, output ++ (result ++ "\n"), c4⟩

/-- The block `COMMAND: libs-only-other` (lines 614 to 641). -/
def cmd_libs_only_other (rp : Rosstackage) (env : Environment) (l : Locals)
    (calls : List Call) (output : String) : Outcome :=
  if size l.package == 0 then error_exit calls output "no package given"
  else if size l.target != 0 || size l.top != 0 || size l.length_str != 0 || l.zombie_only then
    error_exit calls output "invalid option(s) given"
  else
    let r := rp.exports l.package "cpp" "lflags" l.deps_only
    let c4 := calls ++ [Call.exports l.package "cpp" "lflags" l.deps_only]
    if !r.1 then ⟨false, output, c4⟩
    else
      let combined := append_each " " "" r.2
      let intermediate := env.parse_compiler_flags combined "-L" false false
      let result := env.parse_compiler_flags intermediate "-l" false false
      ⟨true, output ++ (result ++ "\n"), c4⟩

/-- The block `COMMAND: contents [stack]` (lines 642 to 664); the `bool` that
`rp.contents` returns is not looked at. -/
def cmd_contents (rp : Rosstackage) (l : Locals) (calls : List Call)
    (output : String) : Outcome :=
  if size l.package == 0 then error_exit calls output "no stack given"
  else if size l.target != 0 || size l.top != 0 || size l.length_str != 0 ||
      l.zombie_only || l.deps_only || size l.lang != 0 || size l.attrib != 0 then
    error_exit calls output "invalid option(s) given"
  else
    let r := rp.contents l.package
    ⟨true, append_each "\n" output r.2, calls ++ [Call.contents l.package]⟩

/-- The block `COMMAND: contains [package]` and `contains-path` (lines 665 to 688). -/
def cmd_contains (rp : Rosstackage) (l : Locals) (calls : List Call)
    (output : String) : Outcome :=
  if size l.package == 0 then error_exit calls output "no package given"
  else if size l.target != 0 || size l.top != 0 || size l.length_str != 0 ||
      l.zombie_only || l.deps_only || size l.lang != 0 || size l.attrib != 0 then
    error_exit calls output "invalid option(s) given"
  else
    let r := rp.contains l.package
    let c4 := calls ++ [Call.contains l.package]
    if !r.1 then ⟨false, output, c4⟩
    else if l.command == "contains" then ⟨true, output ++ (r.2.1 ++ "\n"), c4⟩
    else ⟨true, output ++ (r.2.2 ++ "\n"), c4⟩

/-- The chain of `if`/`else if` from `find` to the last `else` (lines 160 to
693), which selects the block of the command; `calls` are the calls made so far. -/
def dispatch (rp : Rosstackage) (env : Environment) (l : Locals)
    (calls : List Call) (output : String) : Outcome :=
  if l.command == "find" then cmd_find rp l calls output
  else if l.command == "list" then cmd_list rp l calls output
  else if l.command == "list-names" then cmd_list_names rp l calls output
  else if l.command == "list-duplicates" then cmd_list_duplicates rp l calls output
  else if rp.getName == ROSPACK_NAME && l.command == "langs" then
    cmd_langs rp env l calls output
  else if l.command == "depends" || l.command == "deps" ||
      l.command == "depends1" || l.command == "deps1" then
    cmd_depends rp l calls output
  else if l.command == "depends-manifests" || l.command == "deps-manifests" then
    cmd_depends_manifests rp l calls output
  else if rp.getName == ROSPACK_NAME &&
      (l.command == "depends-msgsrv" || l.command == "deps-msgsrv") then
    cmd_depends_msgsrv rp l calls output
  else if l.command == "depends-indent" || l.command == "deps-indent" then
    cmd_depends_indent rp l calls output
  else if l.command == "depends-why" || l.command == "deps-why" then
    cmd_depends_why rp l calls output
  else if rp.getName == ROSPACK_NAME &&
      (l.command == "rosdep" || l.command == "rosdeps" ||
       l.command == "rosdep0" || l.command == "rosdeps0") then
    cmd_rosdep rp l calls output
  else if rp.getName == ROSPACK_NAME &&
      (l.command == "vcs" || l.command == "vcs0") then
    cmd_vcs rp l calls output
  else if l.command == "depends-on" || l.command == "depends-on1" then
    cmd_depends_on rp l calls output
  else if rp.getName == ROSPACK_NAME && l.command == "export" then
    cmd_export rp l calls output
  else if rp.getName == ROSPACK_NAME && l.command == "plugins" then
    cmd_plugins rp l calls output
  else if rp.getName == ROSPACK_NAME && l.command == "cflags-only-I" then
    cmd_cflags_only_I rp env l calls output
  else if rp.getName == ROSPACK_NAME && l.command == "cflags-only-other" then
    cmd_cflags_only_other rp env l calls output
  else if rp.getName == ROSPACK_NAME && l.command == "libs-only-L" then
    cmd_libs_only_L rp env l calls output
  else if rp.getName == ROSPACK_NAME && l.command == "libs-only-l" then
    cmd_libs_only_l rp env l calls output
  else if rp.getName == ROSPACK_NAME && l.command == "libs-only-other" then
    cmd_libs_only_other rp env l calls output
  else if rp.getName == ROSSTACK_NAME && l.command == "contents" then
    cmd_contents rp l calls output
  else if rp.getName == ROSSTACK_NAME &&
      (l.command == "contains" || l.command == "contains-path") then
    cmd_contains rp l calls output
  else
    error_exit calls output ("command " ++ l.command ++ " not implemented")

/-- The function `rospack_run` of `src/rospack_cmdline.cpp`, from the point where
`parse_args` has filled `vm`; `output` is the string the caller passes in. -/
def rospack_run (rp : Rosstackage) (env : Environment) (vm : VariablesMap)
    (output : String) : Outcome :=
  let l := read_options rp vm
  let c0 : List Call := [Call.setQuiet vm.quiet]
  if size l.command == 0 then
    ⟨true, output, c0 ++ [Call.log_error "no command given.  Try 'rospack help'"]⟩
  else
  -- For some commands, we force a crawl.
  let force : Bool :=
    l.command == "profile" || l.command == "depends-on" || l.command == "depends-on1" ||
    l.command == "langs" || l.command == "list-duplicates"
  -- rp.inStackage is called when no package is given
  let c1 : List Call := match vm.package with
    | some _ => c0
    | none => c0 ++ [Call.inStackage]
  if l.command == "help" then cmd_help rp l c1 output
  else
  let sp := rp.getSearchPathFromEnv
  let c2 := c1 ++ [Call.getSearchPathFromEnv]
  if !sp.1 then ⟨false, output, c2⟩
  else
  let search_path := sp.2
  if l.command == "profile" then cmd_profile rp l search_path c2 output
  else
  -- We crawl here because profile (above) does its own special crawl.
  let c3 := c2 ++ [Call.crawl search_path force]
  dispatch rp env l c3 output

/-! ## Vocabulary of the statements -/

/-- The options of the command line other than the command itself and `quiet`. -/
inductive Opt where
  | package
  | target
  | top
  | length
  | zombie_only
  | deps_only
  | lang
  | attrib
  deriving DecidableEq, Repr

/-- Whether the dispatcher sees an option as given, the way its checks read the
locals: `package_given` and the two flags by presence, every other option by
`x.size()` of its value. -/
def Locals.isSet (l : Locals) : Opt → Bool
  | Opt.package => l.package_given
  | Opt.target => size l.target != 0
  | Opt.top => size l.top != 0
  | Opt.length => size l.length_str != 0
  | Opt.zombie_only => l.zombie_only
  | Opt.deps_only => l.deps_only
  | Opt.lang => size l.lang != 0
  | Opt.attrib => size l.attrib != 0

/-- The same on the option set: an option counts as set when it is present and,
for a string option other than `package`, its value is not empty. -/
def VariablesMap.isSet (vm : VariablesMap) : Opt → Bool
  | Opt.package => vm.package.isSome
  | Opt.target => size (vm.target.getD "") != 0
  | Opt.top => size (vm.top.getD "") != 0
  | Opt.length => size (vm.length.getD "") != 0
  | Opt.zombie_only => vm.zombie_only
  | Opt.deps_only => vm.deps_only
  | Opt.lang => size (vm.lang.getD "") != 0
  | Opt.attrib => size (vm.attrib.getD "") != 0

/-- Whether an option occurs on the command line at all (`vm.count(..) != 0`). -/
def VariablesMap.present (vm : VariablesMap) : Opt → Bool
  | Opt.package => vm.package.isSome
  | Opt.target => vm.target.isSome
  | Opt.top => vm.top.isSome
  | Opt.length => vm.length.isSome
  | Opt.zombie_only => vm.zombie_only
  | Opt.deps_only => vm.deps_only
  | Opt.lang => vm.lang.isSome
  | Opt.attrib => vm.attrib.isSome

/-- The local `package` of `rospack_run`: the given package, or else what
`rp.inStackage` finds from the directory context. -/
def resolved_package (rp : Rosstackage) (vm : VariablesMap) : String :=
  (read_options rp vm).package

/-- The arguments a command can require. -/
inductive Arg where
  | name
  | target
  | lang
  | attrib
  deriving DecidableEq, Repr

/-- Whether a required argument is non-empty when the dispatcher checks it. -/
def Locals.supplied (l : Locals) : Arg → Bool
  | Arg.name => size l.package != 0
  | Arg.target => size l.target != 0
  | Arg.lang => size l.lang != 0
  | Arg.attrib => size l.attrib != 0

/-- Whether a required argument is supplied by the option set, the name possibly
by the directory context. -/
def supplied (rp : Rosstackage) (vm : VariablesMap) (a : Arg) : Bool :=
  (read_options rp vm).supplied a

/-- The calls that precede the retrieval of the search path. -/
def prelude_calls (vm : VariablesMap) : List Call :=
  match vm.package with
  | some _ => [Call.setQuiet vm.quiet]
  | none => [Call.setQuiet vm.quiet, Call.inStackage]

/-- The local `force` of `rospack_run` as a function of the command. -/
def force_of (command : String) : Bool :=
  command == "profile" || command == "depends-on" || command == "depends-on1" ||
  command == "langs" || command == "list-duplicates"

/-- The queries on the package index (section 6 of the specification), as
opposed to logging, the directory-context lookup, the usage text, the retrieval
of the search path and the crawl. -/
def Call.isIndexQuery : Call → Bool
  | Call.setQuiet _ => false
  | Call.log_error _ => false
  | Call.inStackage => false
  | Call.usage => false
  | Call.getSearchPathFromEnv => false
  | Call.crawl _ _ => false
  | _ => true

/-- The error reports among the calls. -/
def Call.isLogError : Call → Bool
  | Call.log_error _ => true
  | _ => false

/-- The calls of a run apart from its error reports. -/
def collaborator_calls (r : Outcome) : List Call :=
  r.calls.filter (fun k => !k.isLogError)

/-- The command names that some branch of `rospack_run` accepts under a persona. -/
def known_commands : Persona → List String
  | Persona.PACKAGE =>
    ["help", "profile", "find", "list", "list-names", "list-duplicates", "langs",
     "depends", "deps", "depends1", "deps1", "depends-manifests", "deps-manifests",
     "depends-msgsrv", "deps-msgsrv", "depends-indent", "deps-indent",
     "depends-why", "deps-why", "rosdep", "rosdeps", "rosdep0", "rosdeps0",
     "vcs", "vcs0", "depends-on", "depends-on1", "export", "plugins",
     "cflags-only-I", "cflags-only-other", "libs-only-L", "libs-only-l",
     "libs-only-other"]
  | Persona.STACK =>
    ["help", "profile", "find", "list", "list-names", "list-duplicates",
     "depends", "deps", "depends1", "deps1", "depends-manifests", "deps-manifests",
     "depends-indent", "deps-indent", "depends-why", "deps-why",
     "depends-on", "depends-on1", "contents", "contains", "contains-path"]

/-- The commands the specification calls exclusive to the PACKAGE persona. -/
def package_only_commands : List String :=
  ["langs", "depends-msgsrv", "deps-msgsrv", "rosdep", "rosdeps", "rosdep0", "rosdeps0",
   "vcs", "vcs0", "export", "plugins", "cflags-only-I", "cflags-only-other",
   "libs-only-L", "libs-only-l", "libs-only-other"]

/-- The commands the specification calls exclusive to the STACK persona. -/
def stack_only_commands : List String :=
  ["contents", "contains", "contains-path"]

/-- The outcome of the last `else` of `rospack_run`, reached by a command that no
branch accepts: failure right after the retrieval of the search path when that
fails, and otherwise the crawl followed by the report
`command <name> not implemented`. -/
def unknown_command_path (rp : Rosstackage) (vm : VariablesMap) (output : String)
    (command : String) : Outcome :=
  if rp.getSearchPathFromEnv.1 then
    error_exit (prelude_calls vm ++ [Call.getSearchPathFromEnv,
      Call.crawl rp.getSearchPathFromEnv.2 (force_of command)]) output
      ("command " ++ command ++ " not implemented")
  else ⟨false, output, prelude_calls vm ++ [Call.getSearchPathFromEnv]⟩

/-- One row of the table of section 4.1 of the specification. -/
structure CommandDescriptor where
  names : List String
  personas : List Persona
  requires : List Arg
  forbids : List Opt
  deriving DecidableEq, Repr

/-- The seven options forbidden by most commands that take a name. -/
def forbids_all_but_package : List Opt :=
  [Opt.target, Opt.top, Opt.length, Opt.zombie_only, Opt.deps_only, Opt.lang, Opt.attrib]

/-- The table of section 4.1 of the specification, row by row. -/
def grammar : List CommandDescriptor :=
  [ ⟨["help"], [Persona.PACKAGE, Persona.STACK], [],
      [Opt.package, Opt.top, Opt.length, Opt.zombie_only, Opt.deps_only, Opt.lang,
       Opt.attrib]⟩,
    ⟨["profile"], [Persona.PACKAGE, Persona.STACK], [],
      [Opt.package, Opt.target, Opt.top, Opt.deps_only, Opt.lang, Opt.attrib]⟩,
    ⟨["find"], [Persona.PACKAGE, Persona.STACK], [Arg.name], forbids_all_but_package⟩,
    ⟨["list", "list-names", "list-duplicates"], [Persona.PACKAGE, Persona.STACK], [],
      Opt.package :: forbids_all_but_package⟩,
    ⟨["langs"], [Persona.PACKAGE], [], Opt.package :: forbids_all_but_package⟩,
    ⟨["depends", "depends1", "deps", "deps1"], [Persona.PACKAGE, Persona.STACK],
      [Arg.name], forbids_all_but_package⟩,
    ⟨["depends-why"], [Persona.PACKAGE, Persona.STACK], [Arg.name, Arg.target],
      [Opt.top, Opt.length, Opt.zombie_only, Opt.deps_only, Opt.lang, Opt.attrib]⟩,
    ⟨["depends-on", "depends-on1"], [Persona.PACKAGE, Persona.STACK], [Arg.name],
      forbids_all_but_package⟩,
    ⟨["export"], [Persona.PACKAGE], [Arg.name, Arg.lang, Arg.attrib],
      [Opt.target, Opt.top, Opt.length, Opt.zombie_only]⟩,
    ⟨["plugins"], [Persona.PACKAGE], [Arg.name, Arg.attrib],
      [Opt.target, Opt.length, Opt.zombie_only]⟩,
    ⟨["cflags-only-I", "cflags-only-other", "libs-only-L", "libs-only-l",
      "libs-only-other"], [Persona.PACKAGE], [Arg.name],
      [Opt.target, Opt.top, Opt.length, Opt.zombie_only]⟩,
    ⟨["contents", "contains", "contains-path"], [Persona.STACK], [Arg.name],
      forbids_all_but_package⟩ ]

/-- The text `rospack_run` reports when a required argument of a command is
empty, branch by branch. -/
def missing_message (command : String) : String :=
  if command == "depends-why" then "no package/stack or target given"
  else if command == "export" then "no package / lang / attrib given"
  else if command == "plugins" then "no package / attrib given"
  else if command == "contents" then "no stack given"
  else if command == "contains" || command == "contains-path" ||
      command == "cflags-only-I" || command == "cflags-only-other" ||
      command == "libs-only-L" || command == "libs-only-l" ||
      command == "libs-only-other" then "no package given"
  else "no package/stack given"

/-- The pairs (alias, canonical name) of the command aliases. -/
def alias_pairs : List (String × String) :=
  [("deps", "depends"), ("deps1", "depends1"), ("deps-manifests", "depends-manifests"),
   ("deps-msgsrv", "depends-msgsrv"), ("deps-indent", "depends-indent"),
   ("deps-why", "depends-why"), ("rosdeps", "rosdep"), ("rosdeps0", "rosdep0")]

/-- The option set with another command. -/
def with_command (vm : VariablesMap) (command : String) : VariablesMap :=
  { vm with command := some command }

/-- The entries of the exclusion list of `langs`: none when the variable is not
defined, else the pieces `boost::split` cuts at the colons. -/
def disabled_langs : Option String → List String
  | none => []
  | some ros_lang_disable => boost_split ros_lang_disable ":"

/-- Every item followed by the separator, all concatenated. -/
def join_each (sep : String) : List String → String
  | [] => ""
  | it :: rest => it ++ sep ++ join_each sep rest

/-- The parameters of the single-pass flag commands in the table of section 4.3
of the specification: source attribute, marker, inclusion mode, de-duplication. -/
def flag_params : List (String × String × String × Bool × Bool) :=
  [("cflags-only-I", "cflags", "-I", true, false),
   ("cflags-only-other", "cflags", "-I", false, false),
   ("libs-only-L", "lflags", "-L", true, false),
   ("libs-only-l", "lflags", "-l", true, true)]

/-! ## A token filter after section 4.3, and sample collaborators -/

/-- Modelled from the spec: the tokens of a raw flag string, as cut by
`parse_compiler_flags` of `utils.cpp` (not among the sources at hand): the
maximal runs of characters other than the space.  `cur` is the token being read,
reversed. -/
def flag_tokens : List Char → List Char → List (List Char)
  | cur, [] => if cur.isEmpty then [] else [cur.reverse]
  | cur, c :: cs =>
    if c == ' ' then
      if cur.isEmpty then flag_tokens [] cs else cur.reverse :: flag_tokens [] cs
    else flag_tokens (c :: cur) cs

/-- Modelled from the spec: the de-duplication of `parse_compiler_flags` of
`utils.cpp` (not among the sources at hand), keeping the first occurrence of each
token in order. -/
def dedup_tokens : List (List Char) → List (List Char) → List (List Char)
  | _, [] => []
  | seen, t :: ts =>
    if seen.contains t then dedup_tokens seen ts else t :: dedup_tokens (t :: seen) ts

/-- Modelled from the spec: the token filter `parse_compiler_flags` of `utils.cpp`
(not among the sources at hand), after section 4.3: in inclusion mode the tokens
that start with the marker, the marker stripped; in exclusion mode the tokens
that do not start with it, unchanged; de-duplicated on request; each token
followed by one space. -/
def spec_parse_compiler_flags (instring token : String) (select last : Bool) : String :=
  let tokens := flag_tokens [] instring.toList
  let kept :=
    if select then
      (tokens.filter (fun t => token.toList.isPrefixOf t)).map
        (fun t => t.drop token.toList.length)
    else tokens.filter (fun t => !token.toList.isPrefixOf t)
  let kept := if last then dedup_tokens [] kept else kept
  String.join (kept.map (fun t => String.mk t ++ " "))

/-- A sample collaborator of the given persona: the search path is `/ws`, every
query succeeds with a fixed answer. -/
def sample_rp (persona : Persona) : Rosstackage where
  persona := persona
  inStackage := (false, "")
  getSearchPathFromEnv := (true, ["/ws"])
  profile := fun _ _ _ => (false, ["0.01 /ws/pkg"])
  find := fun _ => (true, "/ws/pkg")
  list := [("pkg", "/ws/pkg")]
  listDuplicates := []
  depsOn := fun _ _ => (true, ["cpp", "java", "python", "lua"])
  deps := fun _ _ => (true, ["dep_a", "dep_b"])
  depsManifests := fun _ _ => (true, ["/ws/dep_a/manifest.xml"])
  depsMsgSrv := fun _ _ => (true, ["gen_a"])
  depsIndent := fun _ _ => (true, ["dep_a", " dep_b"])
  depsWhy := fun _ _ => (true, "Dependency chains from pkg to dep_b:\n")
  rosdeps := fun _ _ => (true, ["name: libfoo"])
  vcs := fun _ _ => (true, ["type: git"])
  exports := fun _ _ _ _ => (true, ["-Lfoo -lbar -Wl,-rpath -lbaz"])
  plugins := fun _ _ _ => (true, ["pkg /ws/pkg/plugin.xml"])
  contents := fun _ => (true, ["pkg"])
  contains := fun _ => (true, ("stack_a", "/ws/stack_a"))

/-- A sample environment: `ROS_LANG_DISABLE=cpp:python` and the token filter of
section 4.3. -/
def sample_env : Environment :=
  ⟨some "cpp:python", spec_parse_compiler_flags⟩

/-- The option set with nothing on the command line. -/
def no_options : VariablesMap :=
  ⟨none, none, none, false, none, none, none, none, false, false⟩

/-- The command line `find pkg --target=t`. -/
def vm_find_target : VariablesMap :=
  { no_options with command := some "find", package := some "pkg", target := some "t" }

/-- The command line `find`, with no package. -/
def vm_find : VariablesMap :=
  { no_options with command := some "find" }

/-- A collaborator like `sample_rp` that finds the package `pkg` from the
directory context. -/
def sample_rp_in_pkg (persona : Persona) : Rosstackage :=
  { sample_rp persona with inStackage := (true, "pkg") }

/-- The command line `langs`. -/
def vm_langs : VariablesMap :=
  { no_options with command := some "langs" }

/-- The command line `profile`. -/
def vm_profile : VariablesMap :=
  { no_options with command := some "profile" }

/-- The command line `<command> pkg`. -/
def vm_command_pkg (command : String) : VariablesMap :=
  { no_options with command := some command, package := some "pkg" }

/-- The crawls among the calls. -/
def Call.isCrawl : Call → Bool
  | Call.crawl _ _ => true
  | _ => false

/-- The commands for which `rospack_run` asks the crawl to rescan everything, as
the specification lists them. -/
def forced_crawl_commands : List String :=
  ["depends-on", "depends-on1", "langs", "list-duplicates"]

/-- A collaborator like `sample_rp` whose search-path retrieval fails. -/
def sample_rp_no_path (persona : Persona) : Rosstackage :=
  { sample_rp persona with getSearchPathFromEnv := (false, []) }

/-- A collaborator like `sample_rp` whose queries all report failure (the profile
query by answering `true`). -/
def sample_rp_failing (persona : Persona) : Rosstackage :=
  { sample_rp persona with
    profile := fun _ _ _ => (true, ["partial"])
    find := fun _ => (false, "partial")
    depsOn := fun _ _ => (false, ["partial"])
    deps := fun _ _ => (false, ["partial"])
    depsManifests := fun _ _ => (false, ["partial"])
    depsMsgSrv := fun _ _ => (false, ["partial"])
    depsIndent := fun _ _ => (false, ["partial"])
    depsWhy := fun _ _ => (false, "partial")
    rosdeps := fun _ _ => (false, ["partial"])
    vcs := fun _ _ => (false, ["partial"])
    exports := fun _ _ _ _ => (false, ["partial"])
    plugins := fun _ _ _ => (false, ["partial"])
    contents := fun _ => (false, [])
    contains := fun _ => (false, ("partial", "partial")) }

/-- What every block of the dispatcher does with the calls made so far and the
output it is given: it makes exactly one more call, not a crawl, and when it
returns `false` the output is the one it was given. -/
def block_shape (calls : List Call) (output : String) (r : Outcome) : Prop :=
  ∃ k, r.calls = calls ++ [k] ∧ k.isCrawl = false ∧ (r.ret = false → r.output = output)

/-- Whether the answer of the collaborator to a recorded call reports failure:
`false` from a query that returns a `bool`, `true` from the profile query; the
calls that return nothing never do. -/
def reports_failure (rp : Rosstackage) : Call → Bool
  | Call.getSearchPathFromEnv => !rp.getSearchPathFromEnv.1
  | Call.profile search_path zombie_only length =>
    (rp.profile search_path zombie_only length).1
  | Call.find name => !(rp.find name).1
  | Call.depsOn name direct => !(rp.depsOn name direct).1
  | Call.deps name direct => !(rp.deps name direct).1
  | Call.depsManifests name direct => !(rp.depsManifests name direct).1
  | Call.depsMsgSrv name direct => !(rp.depsMsgSrv name direct).1
  | Call.depsIndent name direct => !(rp.depsIndent name direct).1
  | Call.depsWhy src target => !(rp.depsWhy src target).1
  | Call.rosdeps name direct => !(rp.rosdeps name direct).1
  | Call.vcs name direct => !(rp.vcs name direct).1
  | Call.exports name lang attrib deps_only => !(rp.exports name lang attrib deps_only).1
  | Call.plugins name attrib top => !(rp.plugins name attrib top).1
  | Call.contents name => !(rp.contents name).1
  | Call.contains name => !(rp.contains name).1
  | _ => false

/-- The containment-listing queries among the calls. -/
def Call.isContents : Call → Bool
  | Call.contents _ => true
  | _ => false

/-- A block surfaces the failure of its query: it makes one more call, and when
the answer to that call reports failure the block returns `false`, unless the
call is the `contents` query. -/
def surfaces_failure (rp : Rosstackage) (calls : List Call) (r : Outcome) : Prop :=
  ∃ k, r.calls = calls ++ [k] ∧
    (reports_failure rp k = true → k.isContents = true ∨ r.ret = false)

/-- The output policies of the specification (section 3), the pair rendering of
`list` apart. -/
inductive OutputJoin where
  | PER_LINE
  | SPACE_JOINED
  | RAW
  deriving DecidableEq, Repr

/-- The rendering conventions of section 6 of the specification: PER_LINE puts a
newline after each item, SPACE_JOINED a space after each item and one newline at
the end, RAW nothing at all. -/
def render : OutputJoin → List String → String
  | OutputJoin.PER_LINE, items => join_each "\n" items
  | OutputJoin.SPACE_JOINED, items => join_each " " items ++ "\n"
  | OutputJoin.RAW, items => join_each "" items

/-- The output policy of each command, as the specification assigns them. -/
def output_join : List (String × OutputJoin) :=
  [("find", OutputJoin.PER_LINE), ("list-names", OutputJoin.PER_LINE),
   ("list-duplicates", OutputJoin.PER_LINE), ("depends", OutputJoin.PER_LINE),
   ("deps", OutputJoin.PER_LINE), ("depends1", OutputJoin.PER_LINE),
   ("deps1", OutputJoin.PER_LINE), ("depends-indent", OutputJoin.PER_LINE),
   ("deps-indent", OutputJoin.PER_LINE), ("rosdep", OutputJoin.PER_LINE),
   ("rosdeps", OutputJoin.PER_LINE), ("rosdep0", OutputJoin.PER_LINE),
   ("rosdeps0", OutputJoin.PER_LINE), ("vcs", OutputJoin.PER_LINE),
   ("vcs0", OutputJoin.PER_LINE), ("depends-on", OutputJoin.PER_LINE),
   ("depends-on1", OutputJoin.PER_LINE), ("plugins", OutputJoin.PER_LINE),
   ("contents", OutputJoin.PER_LINE), ("profile", OutputJoin.PER_LINE),
   ("langs", OutputJoin.SPACE_JOINED), ("depends-manifests", OutputJoin.SPACE_JOINED),
   ("deps-manifests", OutputJoin.SPACE_JOINED), ("depends-msgsrv", OutputJoin.SPACE_JOINED),
   ("deps-msgsrv", OutputJoin.SPACE_JOINED), ("export", OutputJoin.SPACE_JOINED),
   ("depends-why", OutputJoin.RAW), ("deps-why", OutputJoin.RAW)]

/-- The result sequence the collaborator returns to a command: the answer of the
query the command makes with the arguments the option set gives it (a single
returned string is a sequence of one; for `list-names` the names of the listed
pairs; for `langs` the dependents that are not excluded). -/
def returned_items (rp : Rosstackage) (env : Environment) (vm : VariablesMap)
    (c : String) : List String :=
  let name := resolved_package rp vm
  if c == "find" then [(rp.find name).2]
  else if c == "list-names" then rp.list.map Prod.fst
  else if c == "list-duplicates" then rp.listDuplicates
  else if c == "depends" || c == "deps" then (rp.deps name false).2
  else if c == "depends1" || c == "deps1" then (rp.deps name true).2
  else if c == "depends-indent" || c == "deps-indent" then (rp.depsIndent name false).2
  else if c == "rosdep" || c == "rosdeps" then (rp.rosdeps name false).2
  else if c == "rosdep0" || c == "rosdeps0" then (rp.rosdeps name true).2
  else if c == "vcs" then (rp.vcs name false).2
  else if c == "vcs0" then (rp.vcs name true).2
  else if c == "depends-on" then (rp.depsOn name false).2
  else if c == "depends-on1" then (rp.depsOn name true).2
  else if c == "plugins" then
    (rp.plugins name (vm.attrib.getD "") (vm.top.getD "")).2
  else if c == "contents" then (rp.contents name).2
  else if c == "profile" then
    (rp.profile rp.getSearchPathFromEnv.2 vm.zombie_only (read_options rp vm).length).2
  else if c == "langs" then
    (rp.depsOn "roslang" true).2.filter (fun d => d ∉ disabled_langs env.ROS_LANG_DISABLE)
  else if c == "depends-manifests" || c == "deps-manifests" then
    (rp.depsManifests name false).2
  else if c == "depends-msgsrv" || c == "deps-msgsrv" then (rp.depsMsgSrv name false).2
  else if c == "export" then
    (rp.exports name (vm.lang.getD "") (vm.attrib.getD "") vm.deps_only).2
  else if c == "depends-why" || c == "deps-why" then
    [(rp.depsWhy name (vm.target.getD "")).2]
  else []

/-- The command line `help --target=t`. -/
def vm_help_target : VariablesMap :=
  { no_options with command := some "help", target := some "t" }

/-- The command line `profile --length=5 --zombie-only`. -/
def vm_profile_length : VariablesMap :=
  { no_options with command := some "profile", length := some "5", zombie_only := true }

/-- The command line `plugins pkg --attrib=plugin --top=top_pkg --deps-only --lang=cpp`. -/
def vm_plugins_all : VariablesMap :=
  { no_options with
    command := some "plugins"
    package := some "pkg"
    attrib := some "plugin"
    top := some "top_pkg"
    deps_only := true
    lang := some "cpp" }

/-- The command line `export pkg --lang=cpp --attrib=cflags --deps-only`. -/
def vm_export_deps_only : VariablesMap :=
  { no_options with
    command := some "export"
    package := some "pkg"
    lang := some "cpp"
    attrib := some "cflags"
    deps_only := true }

/-- The command line `<command> pkg --deps-only --lang=java --attrib=other`. -/
def vm_flags_all (command : String) : VariablesMap :=
  { no_options with
    command := some command
    package := some "pkg"
    deps_only := true
    lang := some "java"
    attrib := some "other" }

/-- The commands both personas have that require a name and nothing else. -/
def shared_name_commands : List String :=
  ["find", "depends", "deps", "depends1", "deps1", "depends-manifests", "deps-manifests",
   "depends-indent", "deps-indent", "depends-on", "depends-on1"]

/-- The command line `depends-why --target=dep_b`, with no package. -/
def vm_why_target_only : VariablesMap :=
  { no_options with command := some "depends-why", target := some "dep_b" }

/-- The closure queries that take a name and a direct-only flag. -/
inductive Closure where
  | deps
  | depsOn
  | depsManifests
  | depsMsgSrv
  | depsIndent
  | rosdeps
  | vcs
  deriving DecidableEq, Repr

/-- The call of a closure query with a name and a direct-only flag. -/
def Closure.call : Closure → String → Bool → Call
  | Closure.deps, name, direct => Call.deps name direct
  | Closure.depsOn, name, direct => Call.depsOn name direct
  | Closure.depsManifests, name, direct => Call.depsManifests name direct
  | Closure.depsMsgSrv, name, direct => Call.depsMsgSrv name direct
  | Closure.depsIndent, name, direct => Call.depsIndent name direct
  | Closure.rosdeps, name, direct => Call.rosdeps name direct
  | Closure.vcs, name, direct => Call.vcs name direct

/-- The query and the direct-only flag each command is said to use. -/
def direct_only_table : List (String × Closure × Bool) :=
  [("depends", Closure.deps, false), ("deps", Closure.deps, false),
   ("depends1", Closure.deps, true), ("deps1", Closure.deps, true),
   ("depends-on", Closure.depsOn, false), ("depends-on1", Closure.depsOn, true),
   ("rosdep", Closure.rosdeps, false), ("rosdeps", Closure.rosdeps, false),
   ("rosdep0", Closure.rosdeps, true), ("rosdeps0", Closure.rosdeps, true),
   ("vcs", Closure.vcs, false), ("vcs0", Closure.vcs, true),
   ("depends-manifests", Closure.depsManifests, false),
   ("deps-manifests", Closure.depsManifests, false),
   ("depends-msgsrv", Closure.depsMsgSrv, false), ("deps-msgsrv", Closure.depsMsgSrv, false),
   ("depends-indent", Closure.depsIndent, false), ("deps-indent", Closure.depsIndent, false)]

/-- The options each command accepts without reading them: `lang` and `attrib`
for the compiler and linker flag commands, `deps-only` and `lang` for `plugins`. -/
def ignored_options : List (String × List Opt) :=
  [("cflags-only-I", [Opt.lang, Opt.attrib]), ("cflags-only-other", [Opt.lang, Opt.attrib]),
   ("libs-only-L", [Opt.lang, Opt.attrib]), ("libs-only-l", [Opt.lang, Opt.attrib]),
   ("libs-only-other", [Opt.lang, Opt.attrib]), ("plugins", [Opt.deps_only, Opt.lang])]

/-- The export attribute each flag command asks for. -/
def flag_attribute : List (String × String) :=
  [("cflags-only-I", "cflags"), ("cflags-only-other", "cflags"), ("libs-only-L", "lflags"),
   ("libs-only-l", "lflags"), ("libs-only-other", "lflags")]

/-- Two option sets agree on everything except, possibly, the listed options
(value and presence alike). -/
def agree_except (os : List Opt) (vm1 vm2 : VariablesMap) : Prop :=
  vm1.command = vm2.command ∧ vm1.quiet = vm2.quiet ∧
  (Opt.package ∈ os ∨ vm1.package = vm2.package) ∧
  (Opt.target ∈ os ∨ vm1.target = vm2.target) ∧
  (Opt.top ∈ os ∨ vm1.top = vm2.top) ∧
  (Opt.length ∈ os ∨ vm1.length = vm2.length) ∧
  (Opt.zombie_only ∈ os ∨ vm1.zombie_only = vm2.zombie_only) ∧
  (Opt.deps_only ∈ os ∨ vm1.deps_only = vm2.deps_only) ∧
  (Opt.lang ∈ os ∨ vm1.lang = vm2.lang) ∧
  (Opt.attrib ∈ os ∨ vm1.attrib = vm2.attrib)

instance (os : List Opt) (vm1 vm2 : VariablesMap) : Decidable (agree_except os vm1 vm2) := by
  unfold agree_except
  infer_instance

/-- The commands whose forbidden-option check tests `package_given`. -/
def package_forbidding_commands : List String :=
  ["help", "profile", "list", "list-names", "list-duplicates", "langs"]

/-- The option set with the package given explicitly. -/
def with_package (vm : VariablesMap) (package : String) : VariablesMap :=
  { vm with package := some package }

/-- The option set with a string option given the value `v`, or absent when `v`
is `none`; the two flags carry no value and are left as they are. -/
def VariablesMap.with_value (vm : VariablesMap) (o : Opt) (v : Option String) :
    VariablesMap :=
  match o with
  | Opt.package => { vm with package := v }
  | Opt.target => { vm with target := v }
  | Opt.top => { vm with top := v }
  | Opt.length => { vm with length := v }
  | Opt.lang => { vm with lang := v }
  | Opt.attrib => { vm with attrib := v }
  | Opt.zombie_only => vm
  | Opt.deps_only => vm

/-- Two runs that differ only in the calls made before the block: same returned
flag, same output, and the same one call added. -/
def same_but_calls (c1 c2 : List Call) (r1 r2 : Outcome) : Prop :=
  r1.ret = r2.ret ∧ r1.output = r2.output ∧ ∃ k, r1.calls = c1 ++ [k] ∧ r2.calls = c2 ++ [k]

/-- The command line `list`. -/
def vm_list : VariablesMap :=
  { no_options with command := some "list" }

/-- The command line `profile` with an empty length value. -/
def vm_profile_empty_length : VariablesMap :=
  { no_options with command := some "profile", length := some "" }

/-- The commands of `rospack_run` that the table of section 4.1 leaves out, with
the checks their blocks make: the required arguments and the forbidden options. -/
def untabled_rows : List CommandDescriptor :=
  [ ⟨["depends-manifests", "deps-manifests", "depends-indent", "deps-indent"],
      [Persona.PACKAGE, Persona.STACK], [Arg.name], forbids_all_but_package⟩,
    ⟨["depends-msgsrv", "deps-msgsrv"], [Persona.PACKAGE], [Arg.name],
      forbids_all_but_package⟩,
    ⟨["rosdep", "rosdeps", "rosdep0", "rosdeps0"], [Persona.PACKAGE], [Arg.name],
      forbids_all_but_package⟩,
    ⟨["vcs", "vcs0"], [Persona.PACKAGE], [Arg.name], forbids_all_but_package⟩,
    ⟨["deps-why"], [Persona.PACKAGE, Persona.STACK], [Arg.name, Arg.target],
      [Opt.top, Opt.length, Opt.zombie_only, Opt.deps_only, Opt.lang, Opt.attrib]⟩ ]

/-- Every command of `rospack_run` with its checks: the table of section 4.1 and
the commands it leaves out. -/
def all_commands : List CommandDescriptor :=
  grammar ++ untabled_rows

/-- Whether the query a command makes answers with success, for the arguments the
option set gives it: the `bool` of the query, negated for `profile`; `true` for
the commands whose block tests no result (`help`, the three list commands, and
`contents`, whose `bool` is not looked at). -/
def query_succeeds (rp : Rosstackage) (vm : VariablesMap) (c : String) : Bool :=
  let name := resolved_package rp vm
  if c == "find" then (rp.find name).1
  else if c == "depends" || c == "deps" then (rp.deps name false).1
  else if c == "depends1" || c == "deps1" then (rp.deps name true).1
  else if c == "depends-indent" || c == "deps-indent" then (rp.depsIndent name false).1
  else if c == "rosdep" || c == "rosdeps" then (rp.rosdeps name false).1
  else if c == "rosdep0" || c == "rosdeps0" then (rp.rosdeps name true).1
  else if c == "vcs" then (rp.vcs name false).1
  else if c == "vcs0" then (rp.vcs name true).1
  else if c == "depends-on" then (rp.depsOn name false).1
  else if c == "depends-on1" then (rp.depsOn name true).1
  else if c == "plugins" then (rp.plugins name (vm.attrib.getD "") (vm.top.getD "")).1
  else if c == "profile" then
    !(rp.profile rp.getSearchPathFromEnv.2 vm.zombie_only (read_options rp vm).length).1
  else if c == "langs" then (rp.depsOn "roslang" true).1
  else if c == "depends-manifests" || c == "deps-manifests" then
    (rp.depsManifests name false).1
  else if c == "depends-msgsrv" || c == "deps-msgsrv" then (rp.depsMsgSrv name false).1
  else if c == "export" then
    (rp.exports name (vm.lang.getD "") (vm.attrib.getD "") vm.deps_only).1
  else if c == "depends-why" || c == "deps-why" then
    (rp.depsWhy name (vm.target.getD "")).1
  else if c == "cflags-only-I" || c == "cflags-only-other" then
    (rp.exports name "cpp" "cflags" vm.deps_only).1
  else if c == "libs-only-L" || c == "libs-only-l" || c == "libs-only-other" then
    (rp.exports name "cpp" "lflags" vm.deps_only).1
  else if c == "contains" || c == "contains-path" then (rp.contains name).1
  else true

/-- The command line `vcs pkg`. -/
def vm_vcs : VariablesMap :=
  { no_options with command := some "vcs", package := some "pkg" }

/-! ## Basic facts -/

theorem size_eq_zero_iff (s : String) : size s = 0 ↔ s = "" := by
  unfold size
  constructor
  · intro h
    have : s.data = [] := List.length_eq_zero.mp h
    cases s
    simp_all
  · rintro rfl
    rfl

theorem isSet_read_options (rp : Rosstackage) (vm : VariablesMap) (o : Opt) :
    (read_options rp vm).isSet o = vm.isSet o := by
  cases o <;> rfl

theorem command_read_options (rp : Rosstackage) (vm : VariablesMap) (c : String)
    (hcmd : vm.command = some c) : (read_options rp vm).command = c := by
  simp [read_options, hcmd]

theorem prelude_calls_plain (vm : VariablesMap) :
    ∀ k ∈ prelude_calls vm, k.isIndexQuery = false ∧ k.isLogError = false := by
  unfold prelude_calls
  cases vm.package <;> simp [Call.isIndexQuery, Call.isLogError]

/-! ## The head of `rospack_run`: which block a command reaches -/

theorem run_help (rp : Rosstackage) (env : Environment) (vm : VariablesMap)
    (output : String) (hcmd : vm.command = some "help") :
    rospack_run rp env vm output =
      cmd_help rp (read_options rp vm) (prelude_calls vm) output := by
  have hl := command_read_options rp vm "help" hcmd
  cases hv : vm.package <;>
    simp [rospack_run, hl, prelude_calls, hv, size_eq_zero_iff]

theorem run_profile (rp : Rosstackage) (env : Environment) (vm : VariablesMap)
    (output : String) (hcmd : vm.command = some "profile") :
    rospack_run rp env vm output =
      if rp.getSearchPathFromEnv.1 then
        cmd_profile rp (read_options rp vm) rp.getSearchPathFromEnv.2
          (prelude_calls vm ++ [Call.getSearchPathFromEnv]) output
      else ⟨false, output, prelude_calls vm ++ [Call.getSearchPathFromEnv]⟩ := by
  have hl := command_read_options rp vm "profile" hcmd
  cases hv : vm.package <;> cases hs : rp.getSearchPathFromEnv.1 <;>
    simp [rospack_run, hl, prelude_calls, hv, hs, size_eq_zero_iff]

theorem run_dispatch (rp : Rosstackage) (env : Environment) (vm : VariablesMap)
    (output c : String) (hcmd : vm.command = some c) (h0 : c ≠ "")
    (h1 : c ≠ "help") (h2 : c ≠ "profile") :
    rospack_run rp env vm output =
      if rp.getSearchPathFromEnv.1 then
        dispatch rp env (read_options rp vm)
          (prelude_calls vm ++ [Call.getSearchPathFromEnv,
            Call.crawl rp.getSearchPathFromEnv.2 (force_of c)]) output
      else ⟨false, output, prelude_calls vm ++ [Call.getSearchPathFromEnv]⟩ := by
  have hl := command_read_options rp vm c hcmd
  cases hv : vm.package <;> cases hs : rp.getSearchPathFromEnv.1 <;>
    simp [rospack_run, hl, prelude_calls, hv, hs, size_eq_zero_iff, h0, h1, h2, force_of]

/-- The calls before the dispatch chain hold no index query and no error report. -/
theorem before_dispatch_plain (vm : VariablesMap) (sp : List String) (force : Bool) :
    ∀ k ∈ prelude_calls vm ++ [Call.getSearchPathFromEnv, Call.crawl sp force],
      k.isIndexQuery = false ∧ k.isLogError = false := by
  intro k hk
  rcases List.mem_append.mp hk with h | h
  · exact prelude_calls_plain vm k h
  · simp only [List.mem_cons, List.mem_singleton, List.mem_nil_iff, or_false] at h
    rcases h with rfl | rfl <;> exact ⟨rfl, rfl⟩

theorem before_profile_plain (vm : VariablesMap) :
    ∀ k ∈ prelude_calls vm ++ [Call.getSearchPathFromEnv],
      k.isIndexQuery = false ∧ k.isLogError = false := by
  intro k hk
  rcases List.mem_append.mp hk with h | h
  · exact prelude_calls_plain vm k h
  · simp only [List.mem_singleton] at h
    subst h
    exact ⟨rfl, rfl⟩

/-- What an error exit after plain calls looks like from outside. -/
theorem error_exit_facts (calls : List Call) (output msg : String)
    (hplain : ∀ k ∈ calls, k.isIndexQuery = false ∧ k.isLogError = false) :
    (error_exit calls output msg).ret = false ∧
    (error_exit calls output msg).output = output ∧
    (∀ k ∈ (error_exit calls output msg).calls, k.isIndexQuery = false) ∧
    (∀ m, Call.log_error m ∈ (error_exit calls output msg).calls → m = msg) ∧
    (error_exit calls output msg).calls.getLast? = some (Call.log_error msg) := by
  refine ⟨rfl, rfl, ?_, ?_, ?_⟩
  · intro k hk
    rcases List.mem_append.mp hk with h | h
    · exact (hplain k h).1
    · simp only [List.mem_singleton] at h
      subst h
      rfl
  · intro m hm
    rcases List.mem_append.mp hm with h | h
    · have := (hplain _ h).2
      simp [Call.isLogError] at this
    · simp only [List.mem_singleton, Call.log_error.injEq] at h
      exact h
  · simp [error_exit]

/-- What the failure of the search-path retrieval looks like from outside. -/
theorem search_path_failure_facts (vm : VariablesMap) (output : String) :
    let r : Outcome := ⟨false, output, prelude_calls vm ++ [Call.getSearchPathFromEnv]⟩
    r.ret = false ∧ r.output = output ∧ (∀ k ∈ r.calls, k.isIndexQuery = false) ∧
    (∀ m, Call.log_error m ∉ r.calls) := by
  refine ⟨rfl, rfl, ?_, ?_⟩
  · intro k hk
    exact (before_profile_plain vm k hk).1
  · intro m hm
    have := (before_profile_plain vm _ hm).2
    simp [Call.isLogError] at this

/-! ## Validation inside the blocks -/

theorem help_invalid (rp : Rosstackage) (l : Locals) (calls : List Call)
    (output : String) (d : CommandDescriptor) (hd : d ∈ grammar)
    (hc : "help" ∈ d.names) (hforb : ∃ o ∈ d.forbids, l.isSet o = true) :
    cmd_help rp l calls output = error_exit calls output "invalid option(s) given" := by
  simp only [grammar, List.mem_cons, List.mem_singleton, List.mem_nil_iff, or_false] at hd
  rcases hd with rfl | rfl | rfl | rfl | rfl | rfl | rfl | rfl | rfl | rfl | rfl | rfl <;>
  simp at hc
  simp [Locals.isSet, size_eq_zero_iff] at hforb
  simp [cmd_help, size_eq_zero_iff, or_assoc, hforb]

theorem profile_invalid (rp : Rosstackage) (l : Locals) (sp : List String)
    (calls : List Call) (output : String) (d : CommandDescriptor) (hd : d ∈ grammar)
    (hc : "profile" ∈ d.names) (hforb : ∃ o ∈ d.forbids, l.isSet o = true) :
    cmd_profile rp l sp calls output =
      error_exit calls output "invalid option(s) given" := by
  simp only [grammar, List.mem_cons, List.mem_singleton, List.mem_nil_iff, or_false] at hd
  rcases hd with rfl | rfl | rfl | rfl | rfl | rfl | rfl | rfl | rfl | rfl | rfl | rfl <;>
  simp at hc
  simp [Locals.isSet, size_eq_zero_iff] at hforb
  simp [cmd_profile, size_eq_zero_iff, or_assoc, hforb]

theorem grammar_name_ne_empty (d : CommandDescriptor) (c : String) (hd : d ∈ grammar)
    (hc : c ∈ d.names) : c ≠ "" := by
  simp only [grammar, List.mem_cons, List.mem_singleton, List.mem_nil_iff, or_false] at hd
  rcases hd with rfl | rfl | rfl | rfl | rfl | rfl | rfl | rfl | rfl | rfl | rfl | rfl <;>
  simp only [List.mem_cons, List.mem_singleton, List.mem_nil_iff, or_false] at hc <;>
  (try (rcases hc with rfl | rfl | rfl | rfl | rfl)) <;> decide

set_option maxHeartbeats 4000000 in
theorem dispatch_invalid (rp : Rosstackage) (env : Environment) (l : Locals)
    (calls : List Call) (output : String) (d : CommandDescriptor) (c : String)
    (hd : d ∈ grammar) (hc : c ∈ d.names) (hp : rp.persona ∈ d.personas)
    (hl : l.command = c) (h1 : c ≠ "help") (h2 : c ≠ "profile")
    (hreq : ∀ a ∈ d.requires, l.supplied a = true)
    (hforb : ∃ o ∈ d.forbids, l.isSet o = true) :
    dispatch rp env l calls output = error_exit calls output "invalid option(s) given" := by
  simp only [grammar, List.mem_cons, List.mem_singleton, List.mem_nil_iff, or_false] at hd
  rcases hd with rfl | rfl | rfl | rfl | rfl | rfl | rfl | rfl | rfl | rfl | rfl | rfl <;>
  simp only [List.mem_cons, List.mem_singleton, List.mem_nil_iff, or_false] at hc <;>
  (try (rcases hc with rfl | rfl | rfl | rfl | rfl)) <;>
  (first | exact absurd rfl h1 | exact absurd rfl h2 | skip) <;>
  cases hpers : rp.persona <;> rw [hpers] at hp <;> (try simp at hp) <;>
  simp [Locals.supplied, Locals.isSet, forbids_all_but_package, size_eq_zero_iff] at hreq hforb <;>
  simp [dispatch, hl, hpers, size_eq_zero_iff, Rosstackage.getName, ROSPACK_NAME, ROSSTACK_NAME,
    hreq, cmd_find, cmd_list, cmd_list_names, cmd_list_duplicates, cmd_langs, cmd_depends,
    cmd_depends_why, cmd_depends_on, cmd_export, cmd_plugins, cmd_cflags_only_I,
    cmd_cflags_only_other, cmd_libs_only_L, cmd_libs_only_l, cmd_libs_only_other,
    cmd_contents, cmd_contains, or_assoc, hforb]

/-! ## C1 -/

/-- C1, as amended.  For every row of the table of section 4.1, every name of the
row, and a persona of the row: when the required arguments are supplied and some
forbidden option is set, `rospack_run` returns `false`, leaves `output` as it
was, makes no index query, reports no error other than
`invalid option(s) given`, and reports that error last whenever the command is
`help` or the search path is retrieved. -/
theorem C1_forbidden_option_fails (rp : Rosstackage) (env : Environment)
    (vm : VariablesMap) (output : String) (d : CommandDescriptor) (c : String)
    (hd : d ∈ grammar) (hc : c ∈ d.names) (hp : rp.persona ∈ d.personas)
    (hcmd : vm.command = some c)
    (hreq : ∀ a ∈ d.requires, supplied rp vm a = true)
    (hforb : ∃ o ∈ d.forbids, vm.isSet o = true) :
    (rospack_run rp env vm output).ret = false ∧
    (rospack_run rp env vm output).output = output ∧
    (∀ k ∈ (rospack_run rp env vm output).calls, k.isIndexQuery = false) ∧
    (∀ msg, Call.log_error msg ∈ (rospack_run rp env vm output).calls →
      msg = "invalid option(s) given") ∧
    ((c = "help" ∨ rp.getSearchPathFromEnv.1 = true) →
      (rospack_run rp env vm output).calls.getLast? =
        some (Call.log_error "invalid option(s) given")) := by
  have hforb2 : ∃ o ∈ d.forbids, (read_options rp vm).isSet o = true := by
    obtain ⟨o, ho, h⟩ := hforb
    exact ⟨o, ho, by rw [isSet_read_options]; exact h⟩
  by_cases hhelp : c = "help"
  · subst hhelp
    rw [run_help rp env vm output hcmd, help_invalid rp _ _ output d hd hc hforb2]
    obtain ⟨a1, a2, a3, a4, a5⟩ := error_exit_facts (prelude_calls vm) output
      "invalid option(s) given" (prelude_calls_plain vm)
    exact ⟨a1, a2, a3, a4, fun _ => a5⟩
  by_cases hprof : c = "profile"
  · subst hprof
    rw [run_profile rp env vm output hcmd]
    cases hs : rp.getSearchPathFromEnv.1
    · obtain ⟨a1, a2, a3, a4⟩ := search_path_failure_facts vm output
      refine ⟨a1, a2, a3, fun m hm => absurd hm (a4 m), ?_⟩
      rintro (h | h) <;> simp at h
    · rw [if_pos rfl, profile_invalid rp _ _ _ output d hd hc hforb2]
      obtain ⟨a1, a2, a3, a4, a5⟩ := error_exit_facts _ output
        "invalid option(s) given" (before_profile_plain vm)
      exact ⟨a1, a2, a3, a4, fun _ => a5⟩
  have h0 := grammar_name_ne_empty d c hd hc
  rw [run_dispatch rp env vm output c hcmd h0 hhelp hprof]
  cases hs : rp.getSearchPathFromEnv.1
  · obtain ⟨a1, a2, a3, a4⟩ := search_path_failure_facts vm output
    refine ⟨a1, a2, a3, fun m hm => absurd hm (a4 m), ?_⟩
    rintro (h | h)
    · exact absurd h hhelp
    · simp at h
  · rw [if_pos rfl, dispatch_invalid rp env _ _ output d c hd hc hp
      (command_read_options rp vm c hcmd) hhelp hprof hreq hforb2]
    obtain ⟨a1, a2, a3, a4, a5⟩ := error_exit_facts _ output
      "invalid option(s) given" (before_dispatch_plain vm _ _)
    exact ⟨a1, a2, a3, a4, fun _ => a5⟩

/-- C1, a sample: `find pkg --target=t` under the PACKAGE persona. -/
theorem C1_forbidden_option_fails_witness :
    (rospack_run (sample_rp Persona.PACKAGE) sample_env vm_find_target "").ret = false ∧
    (rospack_run (sample_rp Persona.PACKAGE) sample_env vm_find_target "").output = "" ∧
    (rospack_run (sample_rp Persona.PACKAGE) sample_env vm_find_target "").calls.getLast? =
      some (Call.log_error "invalid option(s) given") :=
  have h := C1_forbidden_option_fails (sample_rp Persona.PACKAGE) sample_env vm_find_target ""
    ⟨["find"], [Persona.PACKAGE, Persona.STACK], [Arg.name], forbids_all_but_package⟩ "find"
    (by decide) (by decide) (by decide) rfl (by decide) ⟨Opt.target, by decide, by decide⟩
  ⟨h.1, h.2.1, h.2.2.2.2 (Or.inr rfl)⟩

/-- C1 as stated fails: on `find pkg --target=t` the forbidden option `target` is
present and the run fails with `invalid option(s) given`, but only after the
search path has been retrieved and the crawl has been made. -/
theorem C1_counterexample :
    vm_find_target.present Opt.target = true ∧
    rospack_run (sample_rp Persona.PACKAGE) sample_env vm_find_target "" =
      ⟨false, "", [Call.setQuiet false, Call.getSearchPathFromEnv,
        Call.crawl ["/ws"] false, Call.log_error "invalid option(s) given"]⟩ := by
  decide

/-! ## C2 -/

set_option maxHeartbeats 4000000 in
theorem dispatch_missing (rp : Rosstackage) (env : Environment) (l : Locals)
    (calls : List Call) (output : String) (d : CommandDescriptor) (c : String)
    (hd : d ∈ grammar) (hc : c ∈ d.names) (hp : rp.persona ∈ d.personas)
    (hl : l.command = c) (hmiss : ∃ a ∈ d.requires, l.supplied a = false) :
    dispatch rp env l calls output = error_exit calls output (missing_message c) := by
  simp only [grammar, List.mem_cons, List.mem_singleton, List.mem_nil_iff, or_false] at hd
  rcases hd with rfl | rfl | rfl | rfl | rfl | rfl | rfl | rfl | rfl | rfl | rfl | rfl <;>
  simp only [List.mem_cons, List.mem_singleton, List.mem_nil_iff, or_false] at hc <;>
  (try (rcases hc with rfl | rfl | rfl | rfl | rfl)) <;>
  (try simp at hmiss) <;>
  cases hpers : rp.persona <;> rw [hpers] at hp <;> (try simp at hp) <;>
  simp [Locals.supplied, size_eq_zero_iff] at hmiss <;>
  simp [dispatch, hl, hpers, size_eq_zero_iff, Rosstackage.getName, ROSPACK_NAME, ROSSTACK_NAME,
    missing_message, cmd_find, cmd_depends, cmd_depends_why, cmd_depends_on, cmd_export,
    cmd_plugins, cmd_cflags_only_I, cmd_cflags_only_other, cmd_libs_only_L, cmd_libs_only_l,
    cmd_libs_only_other, cmd_contents, cmd_contains, or_assoc, hmiss]

theorem requires_not_help_profile (d : CommandDescriptor) (c : String) (hd : d ∈ grammar)
    (hc : c ∈ d.names) (a : Arg) (ha : a ∈ d.requires) : c ≠ "help" ∧ c ≠ "profile" := by
  simp only [grammar, List.mem_cons, List.mem_singleton, List.mem_nil_iff, or_false] at hd
  rcases hd with rfl | rfl | rfl | rfl | rfl | rfl | rfl | rfl | rfl | rfl | rfl | rfl <;>
  simp only [List.mem_cons, List.mem_singleton, List.mem_nil_iff, or_false] at hc <;>
  (try (rcases hc with rfl | rfl | rfl | rfl | rfl)) <;>
  first
    | exact absurd ha (List.not_mem_nil a)
    | decide

/-- C2, as amended.  For every row of the table of section 4.1 with required
arguments, every name of the row and a persona of the row: when a required
argument is empty at the check (the name being the given package or else the one
found from the directory context), `rospack_run` returns `false`, leaves `output`
as it was, makes no index query, reports no error other than the
missing-argument text of the command, and reports it last whenever the search
path is retrieved. -/
theorem C2_missing_argument_fails (rp : Rosstackage) (env : Environment)
    (vm : VariablesMap) (output : String) (d : CommandDescriptor) (c : String)
    (hd : d ∈ grammar) (hc : c ∈ d.names) (hp : rp.persona ∈ d.personas)
    (hcmd : vm.command = some c)
    (hmiss : ∃ a ∈ d.requires, supplied rp vm a = false) :
    (rospack_run rp env vm output).ret = false ∧
    (rospack_run rp env vm output).output = output ∧
    (∀ k ∈ (rospack_run rp env vm output).calls, k.isIndexQuery = false) ∧
    (∀ msg, Call.log_error msg ∈ (rospack_run rp env vm output).calls →
      msg = missing_message c) ∧
    (rp.getSearchPathFromEnv.1 = true →
      (rospack_run rp env vm output).calls.getLast? =
        some (Call.log_error (missing_message c))) := by
  obtain ⟨a, ha, hsup⟩ := hmiss
  obtain ⟨hhelp, hprof⟩ := requires_not_help_profile d c hd hc a ha
  have h0 := grammar_name_ne_empty d c hd hc
  rw [run_dispatch rp env vm output c hcmd h0 hhelp hprof]
  cases hs : rp.getSearchPathFromEnv.1
  · obtain ⟨a1, a2, a3, a4⟩ := search_path_failure_facts vm output
    refine ⟨a1, a2, a3, fun m hm => absurd hm (a4 m), ?_⟩
    intro h
    simp at h
  · rw [if_pos rfl, dispatch_missing rp env _ _ output d c hd hc hp
      (command_read_options rp vm c hcmd) ⟨a, ha, hsup⟩]
    obtain ⟨a1, a2, a3, a4, a5⟩ := error_exit_facts _ output
      (missing_message c) (before_dispatch_plain vm _ _)
    exact ⟨a1, a2, a3, a4, fun _ => a5⟩

/-- C2, a sample: `find` with no package and none found from the directory. -/
theorem C2_missing_argument_fails_witness :
    (rospack_run (sample_rp Persona.STACK) sample_env vm_find "").ret = false ∧
    (rospack_run (sample_rp Persona.STACK) sample_env vm_find "").output = "" ∧
    (rospack_run (sample_rp Persona.STACK) sample_env vm_find "").calls.getLast? =
      some (Call.log_error "no package/stack given") :=
  have h := C2_missing_argument_fails (sample_rp Persona.STACK) sample_env vm_find ""
    ⟨["find"], [Persona.PACKAGE, Persona.STACK], [Arg.name], forbids_all_but_package⟩ "find"
    (by decide) (by decide) (by decide) rfl ⟨Arg.name, by decide, by decide⟩
  ⟨h.1, h.2.1, h.2.2.2.2 rfl⟩

/-- C2 as stated fails in two ways on `find` with the package option omitted:
the failure comes only after the directory lookup, the retrieval of the search
path and the crawl; and when the directory context provides a package there is
no failure at all. -/
theorem C2_counterexample :
    vm_find.present Opt.package = false ∧
    rospack_run (sample_rp Persona.PACKAGE) sample_env vm_find "" =
      ⟨false, "", [Call.setQuiet false, Call.inStackage, Call.getSearchPathFromEnv,
        Call.crawl ["/ws"] false, Call.log_error "no package/stack given"]⟩ ∧
    rospack_run (sample_rp_in_pkg Persona.PACKAGE) sample_env vm_find "" =
      ⟨true, "/ws/pkg\n", [Call.setQuiet false, Call.inStackage, Call.getSearchPathFromEnv,
        Call.crawl ["/ws"] false, Call.find "pkg"]⟩ := by
  decide

/-! ## C3 and C4 -/

set_option maxHeartbeats 1000000 in
theorem dispatch_unknown (rp : Rosstackage) (env : Environment) (l : Locals)
    (calls : List Call) (output c : String) (hl : l.command = c)
    (hunk : c ∉ known_commands rp.persona) :
    dispatch rp env l calls output =
      error_exit calls output ("command " ++ c ++ " not implemented") := by
  cases hp : rp.persona <;>
  · rw [hp] at hunk
    simp only [known_commands, List.mem_cons, List.mem_singleton, not_or, List.mem_nil_iff,
      not_false_eq_true, and_true] at hunk
    simp_all [dispatch, Rosstackage.getName, ROSPACK_NAME, ROSSTACK_NAME]

theorem known_help_profile (p : Persona) :
    "help" ∈ known_commands p ∧ "profile" ∈ known_commands p := by
  cases p <;> decide

theorem run_unknown (rp : Rosstackage) (env : Environment) (vm : VariablesMap)
    (output c : String) (hcmd : vm.command = some c) (hne : c ≠ "")
    (hunk : c ∉ known_commands rp.persona) :
    rospack_run rp env vm output = unknown_command_path rp vm output c := by
  have h1 : c ≠ "help" := fun h => hunk (h ▸ (known_help_profile rp.persona).1)
  have h2 : c ≠ "profile" := fun h => hunk (h ▸ (known_help_profile rp.persona).2)
  rw [run_dispatch rp env vm output c hcmd hne h1 h2, unknown_command_path]
  cases hs : rp.getSearchPathFromEnv.1
  · simp
  · simp only [if_true]
    exact dispatch_unknown rp env _ _ output c (command_read_options rp vm c hcmd) hunk

/-- What the path of an unknown command looks like from outside. -/
theorem unknown_command_path_facts (rp : Rosstackage) (vm : VariablesMap)
    (output c : String) :
    (unknown_command_path rp vm output c).ret = false ∧
    (unknown_command_path rp vm output c).output = output ∧
    (∀ k ∈ (unknown_command_path rp vm output c).calls, k.isIndexQuery = false) ∧
    (∀ m, Call.log_error m ∈ (unknown_command_path rp vm output c).calls →
      m = "command " ++ c ++ " not implemented") ∧
    (rp.getSearchPathFromEnv.1 = true →
      (unknown_command_path rp vm output c).calls.getLast? =
        some (Call.log_error ("command " ++ c ++ " not implemented"))) := by
  unfold unknown_command_path
  cases hs : rp.getSearchPathFromEnv.1
  · obtain ⟨a1, a2, a3, a4⟩ := search_path_failure_facts vm output
    refine ⟨a1, a2, a3, fun m hm => absurd hm (a4 m), ?_⟩
    intro h
    simp at h
  · rw [if_pos rfl]
    obtain ⟨a1, a2, a3, a4, a5⟩ := error_exit_facts _ output
      ("command " ++ c ++ " not implemented") (before_dispatch_plain vm _ _)
    exact ⟨a1, a2, a3, a4, fun _ => a5⟩

theorem gated_not_known (p : Persona) (c : String)
    (hgate : (p = Persona.STACK ∧ c ∈ package_only_commands) ∨
      (p = Persona.PACKAGE ∧ c ∈ stack_only_commands)) :
    c ≠ "" ∧ c ∉ known_commands p := by
  rcases hgate with ⟨rfl, hc⟩ | ⟨rfl, hc⟩
  · simp only [package_only_commands, List.mem_cons, List.mem_singleton, List.mem_nil_iff,
      or_false] at hc
    rcases hc with rfl | rfl | rfl | rfl | rfl | rfl | rfl | rfl | rfl | rfl | rfl | rfl |
      rfl | rfl | rfl | rfl <;> decide
  · simp only [stack_only_commands, List.mem_cons, List.mem_singleton, List.mem_nil_iff,
      or_false] at hc
    rcases hc with rfl | rfl | rfl <;> decide

/-- C3.  A command exclusive to the PACKAGE persona run under the STACK persona,
and a command exclusive to the STACK persona run under the PACKAGE persona, is
treated exactly as a command name that no branch knows: the run is the
unknown-command path, as it is for every unknown name; it returns `false`,
leaves `output` as it was, makes no index query, and the only error it reports
is `command <name> not implemented` (reported last whenever the search path is
retrieved). -/
theorem C3_persona_gating (rp : Rosstackage) (env : Environment) (vm : VariablesMap)
    (output c : String) (hcmd : vm.command = some c)
    (hgate : (rp.persona = Persona.STACK ∧ c ∈ package_only_commands) ∨
      (rp.persona = Persona.PACKAGE ∧ c ∈ stack_only_commands)) :
    rospack_run rp env vm output = unknown_command_path rp vm output c ∧
    (∀ u, u ≠ "" → u ∉ known_commands rp.persona →
      rospack_run rp env (with_command vm u) output =
        unknown_command_path rp vm output u) ∧
    (rospack_run rp env vm output).ret = false ∧
    (rospack_run rp env vm output).output = output ∧
    (∀ k ∈ (rospack_run rp env vm output).calls, k.isIndexQuery = false) ∧
    (∀ m, Call.log_error m ∈ (rospack_run rp env vm output).calls →
      m = "command " ++ c ++ " not implemented") ∧
    (rp.getSearchPathFromEnv.1 = true →
      (rospack_run rp env vm output).calls.getLast? =
        some (Call.log_error ("command " ++ c ++ " not implemented"))) := by
  obtain ⟨hne, hunk⟩ := gated_not_known rp.persona c hgate
  have hrun := run_unknown rp env vm output c hcmd hne hunk
  refine ⟨hrun, ?_, ?_⟩
  · intro u hu hku
    exact run_unknown rp env (with_command vm u) output u rfl hu hku
  · rw [hrun]
    exact unknown_command_path_facts rp vm output c

/-- C3, a sample: `export pkg` under the STACK persona. -/
theorem C3_persona_gating_witness :
    rospack_run (sample_rp Persona.STACK) sample_env (vm_command_pkg "export") "" =
      ⟨false, "", [Call.setQuiet false, Call.getSearchPathFromEnv, Call.crawl ["/ws"] false,
        Call.log_error "command export not implemented"]⟩ :=
  (C3_persona_gating (sample_rp Persona.STACK) sample_env (vm_command_pkg "export") ""
    "export" rfl (Or.inl ⟨rfl, by decide⟩)).1.trans (by decide)

/-- C4, as amended.  A command string that is not empty and is not the name of a
command under the active persona makes `rospack_run` return `false` along the
unknown-command path, with `output` left as it was. -/
theorem C4_unknown_command_fails (rp : Rosstackage) (env : Environment)
    (vm : VariablesMap) (output c : String) (hcmd : vm.command = some c)
    (hne : c ≠ "") (hunk : c ∉ known_commands rp.persona) :
    (rospack_run rp env vm output).ret = false ∧
    (rospack_run rp env vm output).output = output ∧
    rospack_run rp env vm output = unknown_command_path rp vm output c ∧
    (rp.getSearchPathFromEnv.1 = true →
      (rospack_run rp env vm output).calls.getLast? =
        some (Call.log_error ("command " ++ c ++ " not implemented"))) := by
  have hrun := run_unknown rp env vm output c hcmd hne hunk
  obtain ⟨a1, a2, _, _, a5⟩ := unknown_command_path_facts rp vm output c
  rw [hrun]
  exact ⟨a1, a2, rfl, a5⟩

/-- C4, a sample: the command `frobnicate` under the PACKAGE persona. -/
theorem C4_unknown_command_fails_witness :
    (rospack_run (sample_rp Persona.PACKAGE) sample_env (vm_command_pkg "frobnicate") "").ret
      = false :=
  (C4_unknown_command_fails (sample_rp Persona.PACKAGE) sample_env
    (vm_command_pkg "frobnicate") "" "frobnicate" rfl (by decide) (by decide)).1

/-- C4 as stated fails for the absent and for the empty command: `rospack_run`
reports `no command given` and returns `true`. -/
theorem C4_counterexample :
    rospack_run (sample_rp Persona.PACKAGE) sample_env no_options "" =
      ⟨true, "", [Call.setQuiet false,
        Call.log_error "no command given.  Try 'rospack help'"]⟩ ∧
    (rospack_run (sample_rp Persona.STACK) sample_env (with_command no_options "") "").ret
      = true := by
  decide

/-! ## C5 -/

set_option maxHeartbeats 4000000 in
/-- C5.  For each alias and its canonical name, every persona, every option set
(the command apart) and every collaborator: the two runs return the same flag,
leave the same output and make the same collaborator calls; when the command
exists under the persona the two runs are equal outright, error reports
included (under the other persona both are unknown commands, and only the name
quoted in the report differs). -/
theorem C5_alias_equivalence (rp : Rosstackage) (env : Environment) (vm : VariablesMap)
    (output : String) (p : String × String) (hp : p ∈ alias_pairs) :
    (rospack_run rp env (with_command vm p.1) output).ret =
      (rospack_run rp env (with_command vm p.2) output).ret ∧
    (rospack_run rp env (with_command vm p.1) output).output =
      (rospack_run rp env (with_command vm p.2) output).output ∧
    collaborator_calls (rospack_run rp env (with_command vm p.1) output) =
      collaborator_calls (rospack_run rp env (with_command vm p.2) output) ∧
    (p.2 ∈ known_commands rp.persona →
      rospack_run rp env (with_command vm p.1) output =
        rospack_run rp env (with_command vm p.2) output) := by
  simp only [alias_pairs, List.mem_cons, List.mem_singleton, List.mem_nil_iff, or_false] at hp
  rcases hp with rfl | rfl | rfl | rfl | rfl | rfl | rfl | rfl <;>
  · dsimp only
    rw [run_dispatch rp env (with_command vm _) output _ rfl (by decide) (by decide)
        (by decide),
      run_dispatch rp env (with_command vm _) output _ rfl (by decide) (by decide)
        (by decide)]
    cases hpers : rp.persona <;> cases hs : rp.getSearchPathFromEnv.1 <;>
    simp [dispatch, read_options, with_command, prelude_calls, force_of, Rosstackage.getName,
      hpers, ROSPACK_NAME, ROSSTACK_NAME, cmd_depends, cmd_depends_manifests,
      cmd_depends_msgsrv, cmd_depends_indent, cmd_depends_why, cmd_rosdep, known_commands,
      collaborator_calls, error_exit, List.filter_append, Call.isLogError]

/-- C5, a sample: `deps pkg` and `depends pkg` under the PACKAGE persona. -/
theorem C5_alias_equivalence_witness :
    rospack_run (sample_rp Persona.PACKAGE) sample_env
        (with_command (vm_command_pkg "find") "deps") "" =
      rospack_run (sample_rp Persona.PACKAGE) sample_env
        (with_command (vm_command_pkg "find") "depends") "" :=
  (C5_alias_equivalence (sample_rp Persona.PACKAGE) sample_env (vm_command_pkg "find") ""
    ("deps", "depends") (by decide)).2.2.2 (by decide)

/-! ## Rendering loops -/

theorem append_each_eq (sep : String) (items : List String) (output : String) :
    append_each sep output items = output ++ join_each sep items := by
  unfold append_each
  induction items generalizing output with
  | nil => simp [join_each]
  | cons it rest ih =>
    rw [List.foldl_cons, ih]
    simp [join_each, String.append_assoc]

theorem erase_disabled_eq_filter (disable_langs deps : List String) :
    erase_disabled disable_langs deps = deps.filter (fun it => it ∉ disable_langs) := by
  induction deps with
  | nil => rfl
  | cons it rest ih =>
    by_cases h : it ∈ disable_langs <;> simp [erase_disabled, h, ih]

/-! ## C6 -/

/-- C6.  `langs` under the PACKAGE persona with none of its forbidden options
set, the search path retrieved: when the reverse-dependency query for `roslang`
(direct dependents) returns the list `D`, the run succeeds and appends every
element of `D` that is not an entry of the colon-separated exclusion list, in
the order of `D`, each followed by one space, and then a newline; with no
exclusion list defined nothing is removed.  It is the only index query. -/
theorem C6_langs (rp : Rosstackage) (env : Environment) (vm : VariablesMap)
    (output : String) (D : List String) (hpers : rp.persona = Persona.PACKAGE)
    (hcmd : vm.command = some "langs")
    (hforb : ∀ o ∈ Opt.package :: forbids_all_but_package, vm.isSet o = false)
    (hs : rp.getSearchPathFromEnv.1 = true)
    (hD : rp.depsOn "roslang" true = (true, D)) :
    (rospack_run rp env vm output).ret = true ∧
    (rospack_run rp env vm output).output =
      output ++ join_each " " (D.filter (fun d => d ∉ disabled_langs env.ROS_LANG_DISABLE))
        ++ "\n" ∧
    (env.ROS_LANG_DISABLE = none →
      (rospack_run rp env vm output).output = output ++ join_each " " D ++ "\n") ∧
    (rospack_run rp env vm output).calls.filter Call.isIndexQuery =
      [Call.depsOn "roslang" true] := by
  have hl := command_read_options rp vm "langs" hcmd
  have hforb2 : ∀ o ∈ Opt.package :: forbids_all_but_package,
      (read_options rp vm).isSet o = false :=
    fun o ho => (isSet_read_options rp vm o).trans (hforb o ho)
  rw [run_dispatch rp env vm output "langs" hcmd (by decide) (by decide) (by decide), hs,
    if_pos rfl]
  have hq : (prelude_calls vm).filter Call.isIndexQuery = [] :=
    List.filter_eq_nil_iff.mpr (fun k hk => by simp [(prelude_calls_plain vm k hk).1])
  generalize read_options rp vm = l at hl hforb2
  simp [Locals.isSet, forbids_all_but_package, size_eq_zero_iff] at hforb2
  obtain ⟨f1, f2, f3, f4, f5, f6, f7, f8⟩ := hforb2
  cases hE : env.ROS_LANG_DISABLE <;>
    simp [dispatch, hl, hpers, Rosstackage.getName, ROSPACK_NAME, ROSSTACK_NAME, cmd_langs,
      f1, f2, f3, f4, f5, f6, f7, f8, size_eq_zero_iff, hD, hq, hE, force_of,
      append_each_eq, erase_disabled_eq_filter, disabled_langs, Call.isIndexQuery,
      List.filter_append]

/-- C6, the sample of the specification: exclusion list `cpp:python` and
dependents `cpp, java, python, lua` give `java lua` and a newline. -/
theorem C6_langs_witness :
    sample_env.ROS_LANG_DISABLE = some "cpp:python" ∧
    (sample_rp Persona.PACKAGE).depsOn "roslang" true =
      (true, ["cpp", "java", "python", "lua"]) ∧
    (rospack_run (sample_rp Persona.PACKAGE) sample_env vm_langs "").output =
      "java lua \n" :=
  ⟨rfl, rfl, (C6_langs (sample_rp Persona.PACKAGE) sample_env vm_langs ""
    ["cpp", "java", "python", "lua"] rfl rfl (by decide) rfl rfl).2.1.trans (by decide)⟩

/-! ## C7 and C8 -/

theorem prelude_no_query (vm : VariablesMap) :
    (prelude_calls vm).filter Call.isIndexQuery = [] :=
  List.filter_eq_nil_iff.mpr (fun k hk => by simp [(prelude_calls_plain vm k hk).1])

/-- C7.  `libs-only-other` under the PACKAGE persona, with a name, none of its
forbidden options set and the search path retrieved: when the export query for
(package, `cpp`, `lflags`, deps-only) returns `flags`, the run succeeds and
appends the result of filtering out the `-L` tokens of the combined string (each
export followed by a space) and then the `-l` tokens of that result, followed by
a newline.  The export query is the only index query. -/
theorem C7_libs_only_other (rp : Rosstackage) (env : Environment) (vm : VariablesMap)
    (output : String) (flags : List String) (hpers : rp.persona = Persona.PACKAGE)
    (hcmd : vm.command = some "libs-only-other")
    (hname : resolved_package rp vm ≠ "")
    (hforb : ∀ o ∈ [Opt.target, Opt.top, Opt.length, Opt.zombie_only], vm.isSet o = false)
    (hs : rp.getSearchPathFromEnv.1 = true)
    (hE : rp.exports (resolved_package rp vm) "cpp" "lflags" vm.deps_only = (true, flags)) :
    (rospack_run rp env vm output).ret = true ∧
    (rospack_run rp env vm output).output =
      output ++ (env.parse_compiler_flags
        (env.parse_compiler_flags (join_each " " flags) "-L" false false)
        "-l" false false ++ "\n") ∧
    (rospack_run rp env vm output).calls.filter Call.isIndexQuery =
      [Call.exports (resolved_package rp vm) "cpp" "lflags" vm.deps_only] := by
  have hl := command_read_options rp vm "libs-only-other" hcmd
  have hforb2 : ∀ o ∈ [Opt.target, Opt.top, Opt.length, Opt.zombie_only],
      (read_options rp vm).isSet o = false :=
    fun o ho => (isSet_read_options rp vm o).trans (hforb o ho)
  rw [run_dispatch rp env vm output "libs-only-other" hcmd (by decide) (by decide)
    (by decide), hs, if_pos rfl]
  have hq := prelude_no_query vm
  have hpk : (read_options rp vm).package = resolved_package rp vm := rfl
  have hdo : (read_options rp vm).deps_only = vm.deps_only := rfl
  generalize read_options rp vm = l at hl hforb2 hpk hdo
  simp [Locals.isSet, size_eq_zero_iff] at hforb2
  obtain ⟨f1, f2, f3, f4⟩ := hforb2
  simp [dispatch, hl, hpers, Rosstackage.getName, ROSPACK_NAME, ROSSTACK_NAME,
    cmd_libs_only_other, f1, f2, f3, f4, size_eq_zero_iff, hpk, hdo, hname, hE, hq,
    append_each_eq, Call.isIndexQuery, List.filter_append]

/-- C7, the sample of the specification: with the token filter of section 4.3,
the raw flags `-Lfoo -lbar -Wl,-rpath -lbaz` give `-Wl,-rpath` and a newline. -/
theorem C7_libs_only_other_witness :
    (sample_rp Persona.PACKAGE).exports "pkg" "cpp" "lflags" false =
      (true, ["-Lfoo -lbar -Wl,-rpath -lbaz"]) ∧
    (rospack_run (sample_rp Persona.PACKAGE) sample_env
      (vm_command_pkg "libs-only-other") "").output = "-Wl,-rpath \n" :=
  ⟨rfl, (C7_libs_only_other (sample_rp Persona.PACKAGE) sample_env
    (vm_command_pkg "libs-only-other") "" ["-Lfoo -lbar -Wl,-rpath -lbaz"] rfl rfl
    (by decide) (by decide) rfl rfl).2.1.trans (by decide)⟩

/-- C8.  The single-pass flag commands follow the table of section 4.3: for each
row (command, attribute, marker, inclusion, de-duplication), a valid run of the
command under the PACKAGE persona whose export query for (package, `cpp`,
attribute, deps-only) returns `flags` succeeds and appends the filter applied to
the combined string (each export followed by a space) with the marker and the
two switches of the row, followed by a newline.  The export query is the only
index query. -/
theorem C8_single_pass_flags (rp : Rosstackage) (env : Environment) (vm : VariablesMap)
    (output : String) (flags : List String) (c attr marker : String) (inc dd : Bool)
    (hrow : (c, attr, marker, inc, dd) ∈ flag_params)
    (hpers : rp.persona = Persona.PACKAGE) (hcmd : vm.command = some c)
    (hname : resolved_package rp vm ≠ "")
    (hforb : ∀ o ∈ [Opt.target, Opt.top, Opt.length, Opt.zombie_only], vm.isSet o = false)
    (hs : rp.getSearchPathFromEnv.1 = true)
    (hE : rp.exports (resolved_package rp vm) "cpp" attr vm.deps_only = (true, flags)) :
    (rospack_run rp env vm output).ret = true ∧
    (rospack_run rp env vm output).output =
      output ++ (env.parse_compiler_flags (join_each " " flags) marker inc dd ++ "\n") ∧
    (rospack_run rp env vm output).calls.filter Call.isIndexQuery =
      [Call.exports (resolved_package rp vm) "cpp" attr vm.deps_only] := by
  have hl := command_read_options rp vm c hcmd
  have hforb2 : ∀ o ∈ [Opt.target, Opt.top, Opt.length, Opt.zombie_only],
      (read_options rp vm).isSet o = false :=
    fun o ho => (isSet_read_options rp vm o).trans (hforb o ho)
  have hq := prelude_no_query vm
  have hpk : (read_options rp vm).package = resolved_package rp vm := rfl
  have hdo : (read_options rp vm).deps_only = vm.deps_only := rfl
  simp only [flag_params, List.mem_cons, List.mem_singleton, List.mem_nil_iff, or_false,
    Prod.mk.injEq] at hrow
  rcases hrow with ⟨rfl, rfl, rfl, rfl, rfl⟩ | ⟨rfl, rfl, rfl, rfl, rfl⟩ |
    ⟨rfl, rfl, rfl, rfl, rfl⟩ | ⟨rfl, rfl, rfl, rfl, rfl⟩ <;>
  · rw [run_dispatch rp env vm output _ hcmd (by decide) (by decide) (by decide), hs,
      if_pos rfl]
    generalize read_options rp vm = l at hl hforb2 hpk hdo
    simp [Locals.isSet, size_eq_zero_iff] at hforb2
    obtain ⟨f1, f2, f3, f4⟩ := hforb2
    simp [dispatch, hl, hpers, Rosstackage.getName, ROSPACK_NAME, ROSSTACK_NAME,
      cmd_cflags_only_I, cmd_cflags_only_other, cmd_libs_only_L, cmd_libs_only_l,
      f1, f2, f3, f4, size_eq_zero_iff, hpk, hdo, hname, hE, hq,
      append_each_eq, Call.isIndexQuery, List.filter_append]

/-- C8, a sample: `libs-only-l pkg` with the token filter of section 4.3. -/
theorem C8_single_pass_flags_witness :
    (rospack_run (sample_rp Persona.PACKAGE) sample_env
      (vm_command_pkg "libs-only-l") "").output = "bar baz \n" :=
  (C8_single_pass_flags (sample_rp Persona.PACKAGE) sample_env (vm_command_pkg "libs-only-l")
    "" ["-Lfoo -lbar -Wl,-rpath -lbaz"] "libs-only-l" "lflags" "-l" true true (by decide) rfl
    rfl (by decide) (by decide) rfl rfl).2.1.trans (by decide)

/-! ## C9 and C10 -/

/-- C9.  Under the STACK persona, with a package name that is not empty, none of
the forbidden options set and the search path retrieved: when the containment
query for the package returns `(name, path)`, `contains` succeeds appending
`name` and a newline, `contains-path` succeeds appending `path` and a newline,
the two runs make the same calls, and the only index query of each is the one
containment query for that package. -/
theorem C9_contains (rp : Rosstackage) (env : Environment) (vm : VariablesMap)
    (output name path : String) (hpers : rp.persona = Persona.STACK)
    (hname : resolved_package rp vm ≠ "")
    (hforb : ∀ o ∈ forbids_all_but_package, vm.isSet o = false)
    (hs : rp.getSearchPathFromEnv.1 = true)
    (hC : rp.contains (resolved_package rp vm) = (true, (name, path))) :
    (rospack_run rp env (with_command vm "contains") output).ret = true ∧
    (rospack_run rp env (with_command vm "contains") output).output =
      output ++ (name ++ "\n") ∧
    (rospack_run rp env (with_command vm "contains-path") output).ret = true ∧
    (rospack_run rp env (with_command vm "contains-path") output).output =
      output ++ (path ++ "\n") ∧
    (rospack_run rp env (with_command vm "contains") output).calls =
      (rospack_run rp env (with_command vm "contains-path") output).calls ∧
    (rospack_run rp env (with_command vm "contains") output).calls.filter
      Call.isIndexQuery = [Call.contains (resolved_package rp vm)] := by
  have hforb2 : ∀ (c : String), ∀ o ∈ forbids_all_but_package,
      (read_options rp (with_command vm c)).isSet o = false :=
    fun c o ho => (isSet_read_options rp (with_command vm c) o).trans (hforb o ho)
  have hq := prelude_no_query vm
  have hpk : ∀ (c : String),
      (read_options rp (with_command vm c)).package = resolved_package rp vm :=
    fun _ => rfl
  have hcm : ∀ (c : String), (read_options rp (with_command vm c)).command = c :=
    fun _ => rfl
  have hpre : ∀ (c : String), prelude_calls (with_command vm c) = prelude_calls vm :=
    fun _ => rfl
  rw [run_dispatch rp env (with_command vm "contains") output "contains" rfl (by decide)
      (by decide) (by decide),
    run_dispatch rp env (with_command vm "contains-path") output "contains-path" rfl
      (by decide) (by decide) (by decide), hs, if_pos rfl, if_pos rfl]
  have h1 := hforb2 "contains"
  have h2 := hforb2 "contains-path"
  have p1 := hpk "contains"
  have p2 := hpk "contains-path"
  have c1 := hcm "contains"
  have c2 := hcm "contains-path"
  generalize read_options rp (with_command vm "contains") = l1 at h1 p1 c1
  generalize read_options rp (with_command vm "contains-path") = l2 at h2 p2 c2
  simp [Locals.isSet, forbids_all_but_package, size_eq_zero_iff] at h1 h2
  obtain ⟨f1, f2, f3, f4, f5, f6, f7⟩ := h1
  obtain ⟨g1, g2, g3, g4, g5, g6, g7⟩ := h2
  simp [dispatch, hpers, Rosstackage.getName, ROSPACK_NAME, ROSSTACK_NAME, cmd_contains,
    f1, f2, f3, f4, f5, f6, f7, g1, g2, g3, g4, g5, g6, g7, c1, c2, p1, p2,
    size_eq_zero_iff, hname, hC, hq, hpre, force_of, Call.isIndexQuery, List.filter_append]

/-- C9, the sample of the specification: the containment query answering
`("stack_a", "/ws/stack_a")` renders `stack_a` and `/ws/stack_a`, each with a
newline. -/
theorem C9_contains_witness :
    (sample_rp Persona.STACK).contains "pkg" = (true, ("stack_a", "/ws/stack_a")) ∧
    (rospack_run (sample_rp Persona.STACK) sample_env
      (with_command (vm_command_pkg "find") "contains") "").output = "stack_a\n" ∧
    (rospack_run (sample_rp Persona.STACK) sample_env
      (with_command (vm_command_pkg "find") "contains-path") "").output = "/ws/stack_a\n" :=
  have h := C9_contains (sample_rp Persona.STACK) sample_env (vm_command_pkg "find") ""
    "stack_a" "/ws/stack_a" rfl (by decide) (by decide) rfl rfl
  ⟨rfl, h.2.1.trans (by decide), h.2.2.2.1.trans (by decide)⟩

/-- C10.  `profile` with no length option, none of its forbidden options set and
the search path retrieved: the profile collaborator is called once, as the last
call, with the retrieved search path, the zombie-only flag as given, and the
length limit `-1` when zombie-only is set and `20` when it is not; the result of
the run is decided by the answer to that very call. -/
theorem C10_profile_default_length (rp : Rosstackage) (env : Environment)
    (vm : VariablesMap) (output : String) (hcmd : vm.command = some "profile")
    (hlen : vm.length = none)
    (hforb : ∀ o ∈ [Opt.package, Opt.target, Opt.top, Opt.deps_only, Opt.lang, Opt.attrib],
      vm.isSet o = false)
    (hs : rp.getSearchPathFromEnv.1 = true) :
    (rospack_run rp env vm output).calls =
      prelude_calls vm ++ [Call.getSearchPathFromEnv,
        Call.profile rp.getSearchPathFromEnv.2 vm.zombie_only
          (if vm.zombie_only then -1 else 20)] ∧
    (rospack_run rp env vm output).ret =
      !(rp.profile rp.getSearchPathFromEnv.2 vm.zombie_only
          (if vm.zombie_only then -1 else 20)).1 ∧
    (vm.zombie_only = false →
      Call.profile rp.getSearchPathFromEnv.2 false 20 ∈ (rospack_run rp env vm output).calls) ∧
    (vm.zombie_only = true →
      Call.profile rp.getSearchPathFromEnv.2 true (-1) ∈
        (rospack_run rp env vm output).calls) := by
  have hforb2 : ∀ o ∈ [Opt.package, Opt.target, Opt.top, Opt.deps_only, Opt.lang, Opt.attrib],
      (read_options rp vm).isSet o = false :=
    fun o ho => (isSet_read_options rp vm o).trans (hforb o ho)
  have hz : (read_options rp vm).zombie_only = vm.zombie_only := rfl
  have hlength : (read_options rp vm).length = if vm.zombie_only then -1 else 20 := by
    simp [read_options, hlen]
  rw [run_profile rp env vm output hcmd, hs, if_pos rfl]
  generalize read_options rp vm = l at hforb2 hz hlength
  simp [Locals.isSet, size_eq_zero_iff] at hforb2
  obtain ⟨f1, f2, f3, f4, f5, f6⟩ := hforb2
  cases hzo : vm.zombie_only <;>
  cases hr : (rp.profile rp.getSearchPathFromEnv.2 vm.zombie_only
      (if vm.zombie_only then -1 else 20)).1 <;>
  simp_all [cmd_profile, size_eq_zero_iff]

/-- C10, two samples: `profile` alone asks for 20 entries, `profile
--zombie-only` for an unbounded number. -/
theorem C10_profile_default_length_witness :
    Call.profile ["/ws"] false 20 ∈
      (rospack_run (sample_rp Persona.PACKAGE) sample_env vm_profile "").calls ∧
    Call.profile ["/ws"] true (-1) ∈
      (rospack_run (sample_rp Persona.STACK) sample_env
        { vm_profile with zombie_only := true } "").calls :=
  ⟨(C10_profile_default_length (sample_rp Persona.PACKAGE) sample_env vm_profile "" rfl rfl
      (by decide) rfl).2.2.1 rfl,
   (C10_profile_default_length (sample_rp Persona.STACK) sample_env
      { vm_profile with zombie_only := true } "" rfl rfl (by decide) rfl).2.2.2 rfl⟩

/-! ## The shape of every block: one more call, and no output on failure -/

theorem block_shape_ite {calls : List Call} {output : String} {c : Prop} [Decidable c]
    {r1 r2 : Outcome} (h1 : block_shape calls output r1) (h2 : block_shape calls output r2) :
    block_shape calls output (if c then r1 else r2) := by
  split <;> assumption

theorem block_shape_fail (calls : List Call) (output : String) (k : Call)
    (hk : k.isCrawl = false) : block_shape calls output ⟨false, output, calls ++ [k]⟩ :=
  ⟨k, rfl, hk, fun _ => rfl⟩

theorem block_shape_ok (calls : List Call) (output output2 : String) (k : Call)
    (hk : k.isCrawl = false) : block_shape calls output ⟨true, output2, calls ++ [k]⟩ :=
  ⟨k, rfl, hk, fun h => by simp at h⟩

set_option maxHeartbeats 4000000 in
/-- Every block of the dispatch chain has the shape `block_shape`. -/
theorem dispatch_shape (rp : Rosstackage) (env : Environment) (l : Locals)
    (calls : List Call) (output : String) :
    block_shape calls output (dispatch rp env l calls output) := by
  unfold dispatch
  repeat' apply block_shape_ite
  all_goals first
    | exact block_shape_fail _ _ _ rfl
    | exact block_shape_ok _ _ _ _ rfl

theorem help_shape (rp : Rosstackage) (l : Locals) (calls : List Call) (output : String) :
    block_shape calls output (cmd_help rp l calls output) := by
  simp only [cmd_help, error_exit]
  repeat' apply block_shape_ite
  all_goals first
    | exact block_shape_fail _ _ _ rfl
    | exact block_shape_ok _ _ _ _ rfl

theorem profile_shape (rp : Rosstackage) (l : Locals) (sp : List String)
    (calls : List Call) (output : String) :
    block_shape calls output (cmd_profile rp l sp calls output) := by
  simp only [cmd_profile, error_exit]
  repeat' apply block_shape_ite
  all_goals first
    | exact block_shape_fail _ _ _ rfl
    | exact block_shape_ok _ _ _ _ rfl

/-! ## C11 -/

/-- The run on an absent or empty command. -/
theorem run_no_command (rp : Rosstackage) (env : Environment) (vm : VariablesMap)
    (output : String) (h : vm.command = none ∨ vm.command = some "") :
    rospack_run rp env vm output =
      ⟨true, output, [Call.setQuiet vm.quiet,
        Call.log_error "no command given.  Try 'rospack help'"]⟩ := by
  rcases h with h | h <;> simp [rospack_run, read_options, h, size_eq_zero_iff]

/-- C11.  Whenever `rospack_run` returns `false`, whatever the persona, the
option set, the collaborator and the output passed in, the output after the run
is the output passed in. -/
theorem C11_no_output_on_failure (rp : Rosstackage) (env : Environment)
    (vm : VariablesMap) (output : String)
    (hfail : (rospack_run rp env vm output).ret = false) :
    (rospack_run rp env vm output).output = output := by
  cases hcmd : vm.command with
  | none => rw [run_no_command rp env vm output (Or.inl hcmd)]
  | some c =>
    by_cases h0 : c = ""
    · subst h0
      rw [run_no_command rp env vm output (Or.inr hcmd)]
    by_cases h1 : c = "help"
    · subst h1
      rw [run_help rp env vm output hcmd] at hfail ⊢
      obtain ⟨_, _, _, h⟩ := help_shape rp (read_options rp vm) (prelude_calls vm) output
      exact h hfail
    by_cases h2 : c = "profile"
    · subst h2
      rw [run_profile rp env vm output hcmd] at hfail ⊢
      cases hs : rp.getSearchPathFromEnv.1
      · simp
      · rw [hs, if_pos rfl] at hfail
        rw [if_pos rfl]
        obtain ⟨_, _, _, h⟩ := profile_shape rp (read_options rp vm)
          rp.getSearchPathFromEnv.2 (prelude_calls vm ++ [Call.getSearchPathFromEnv]) output
        exact h hfail
    rw [run_dispatch rp env vm output c hcmd h0 h1 h2] at hfail ⊢
    cases hs : rp.getSearchPathFromEnv.1
    · simp
    · rw [hs, if_pos rfl] at hfail
      rw [if_pos rfl]
      obtain ⟨_, _, _, h⟩ := dispatch_shape rp env (read_options rp vm)
        (prelude_calls vm ++ [Call.getSearchPathFromEnv,
          Call.crawl rp.getSearchPathFromEnv.2 (force_of c)]) output
      exact h hfail

/-- C11, a sample: `find pkg` with a collaborator whose queries fail, the output
holding text from before. -/
theorem C11_no_output_on_failure_witness :
    (rospack_run (sample_rp_failing Persona.PACKAGE) sample_env (vm_command_pkg "find")
      "earlier text\n").ret = false ∧
    (rospack_run (sample_rp_failing Persona.PACKAGE) sample_env (vm_command_pkg "find")
      "earlier text\n").output = "earlier text\n" :=
  ⟨by decide, C11_no_output_on_failure (sample_rp_failing Persona.PACKAGE) sample_env
    (vm_command_pkg "find") "earlier text\n" (by decide)⟩

/-! ## C12 -/

/-- C12 fails for `contents`: under the STACK persona, on `contents pkg` with a
collaborator whose `contents` query reports failure, the run returns `true`. -/
theorem C12_contents_failure_not_surfaced :
    ((sample_rp_failing Persona.STACK).contents "pkg").1 = false ∧
    rospack_run (sample_rp_failing Persona.STACK) sample_env (vm_command_pkg "contents") "" =
      ⟨true, "", [Call.setQuiet false, Call.getSearchPathFromEnv, Call.crawl ["/ws"] false,
        Call.contents "pkg"]⟩ := by
  decide

theorem surfaces_failure_ite {rp : Rosstackage} {calls : List Call} {c : Prop}
    [Decidable c] {r1 r2 : Outcome} (h1 : surfaces_failure rp calls r1)
    (h2 : surfaces_failure rp calls r2) :
    surfaces_failure rp calls (if c then r1 else r2) := by
  split <;> assumption

/-- A call whose answer never reports failure. -/
theorem surfaces_plain (rp : Rosstackage) (calls : List Call) (k : Call) (ret : Bool)
    (output : String) (hk : reports_failure rp k = false) :
    surfaces_failure rp calls ⟨ret, output, calls ++ [k]⟩ :=
  ⟨k, rfl, fun h => by rw [hk] at h; exact absurd h (by decide)⟩

/-- The `contents` query. -/
theorem surfaces_contents (rp : Rosstackage) (calls : List Call) (k : Call) (ret : Bool)
    (output : String) (hk : k.isContents = true) :
    surfaces_failure rp calls ⟨ret, output, calls ++ [k]⟩ :=
  ⟨k, rfl, fun _ => Or.inl hk⟩

/-- A query whose `bool` is tested right after the call: `if(!rp.query(..)) return false;`. -/
theorem surfaces_guard (rp : Rosstackage) (calls : List Call) (k : Call) (b : Bool)
    (output : String) (r2 : Outcome) (hk : reports_failure rp k = !b)
    (h2 : r2.calls = calls ++ [k]) :
    surfaces_failure rp calls (if (!b) = true then ⟨false, output, calls ++ [k]⟩ else r2) := by
  split
  · exact ⟨k, rfl, fun _ => Or.inr rfl⟩
  · rename_i hb
    refine ⟨k, h2, fun h => ?_⟩
    rw [hk] at h
    exact absurd h hb

/-- The profile query, whose `bool` means failure when `true`. -/
theorem surfaces_guard_profile (rp : Rosstackage) (calls : List Call) (k : Call) (b : Bool)
    (output : String) (r2 : Outcome) (hk : reports_failure rp k = b)
    (h2 : r2.calls = calls ++ [k]) :
    surfaces_failure rp calls (if b = true then ⟨false, output, calls ++ [k]⟩ else r2) := by
  split
  · exact ⟨k, rfl, fun _ => Or.inr rfl⟩
  · rename_i hb
    refine ⟨k, h2, fun h => ?_⟩
    rw [hk] at h
    exact absurd h hb

set_option maxHeartbeats 4000000 in
/-- Every block of the dispatch chain other than `contents` surfaces the failure
of the query it makes. -/
theorem dispatch_surfaces_failure (rp : Rosstackage) (env : Environment) (l : Locals)
    (calls : List Call) (output : String) :
    surfaces_failure rp calls (dispatch rp env l calls output) := by
  unfold dispatch
  repeat' first
    | exact surfaces_guard rp calls _ _ _ _ rfl (by first | rfl | (split <;> rfl))
    | apply surfaces_failure_ite
  all_goals first
    | exact surfaces_plain rp calls _ _ _ rfl
    | exact surfaces_contents rp calls _ _ _ rfl

theorem profile_surfaces_failure (rp : Rosstackage) (l : Locals) (sp : List String)
    (calls : List Call) (output : String) :
    surfaces_failure rp calls (cmd_profile rp l sp calls output) := by
  unfold cmd_profile
  repeat' first
    | exact surfaces_guard_profile rp calls _ _ _ _ rfl rfl
    | apply surfaces_failure_ite
  all_goals exact surfaces_plain rp calls _ _ _ rfl

/-- The part of C12 that holds: in every run, when the search-path retrieval or
an index query other than `contents` is called and its answer reports failure,
the run returns `false`. -/
theorem failure_surfaced_except_contents (rp : Rosstackage) (env : Environment)
    (vm : VariablesMap) (output : String) (k : Call)
    (hk : k ∈ (rospack_run rp env vm output).calls)
    (hfail : reports_failure rp k = true) (hcont : k.isContents = false) :
    (rospack_run rp env vm output).ret = false := by
  have hpre : ∀ k ∈ prelude_calls vm, reports_failure rp k = false := by
    intro k hk
    unfold prelude_calls at hk
    cases hv : vm.package <;> rw [hv] at hk <;> simp at hk
    · rcases hk with rfl | rfl <;> rfl
    · subst hk
      rfl
  cases hcmd : vm.command with
  | none =>
    rw [run_no_command rp env vm output (Or.inl hcmd)] at hk
    simp at hk
    rcases hk with rfl | rfl <;> simp [reports_failure] at hfail
  | some c =>
    by_cases h0 : c = ""
    · subst h0
      rw [run_no_command rp env vm output (Or.inr hcmd)] at hk
      simp at hk
      rcases hk with rfl | rfl <;> simp [reports_failure] at hfail
    by_cases h1 : c = "help"
    · subst h1
      rw [run_help rp env vm output hcmd] at hk
      obtain ⟨k2, hk2, _, _⟩ := help_shape rp (read_options rp vm) (prelude_calls vm) output
      have hq : ∀ k ∈ (cmd_help rp (read_options rp vm) (prelude_calls vm) output).calls,
          reports_failure rp k = false := by
        intro k hk
        unfold cmd_help at hk
        split at hk
        · rcases List.mem_append.mp hk with h | h
          · exact hpre k h
          · simp at h
            subst h
            rfl
        · rcases List.mem_append.mp hk with h | h
          · exact hpre k h
          · simp at h
            subst h
            rfl
      rw [hq k hk] at hfail
      simp at hfail
    have hsp : rp.getSearchPathFromEnv.1 = false →
        (⟨false, output, prelude_calls vm ++ [Call.getSearchPathFromEnv]⟩ : Outcome).ret
          = false := fun _ => rfl
    by_cases h2 : c = "profile"
    · subst h2
      rw [run_profile rp env vm output hcmd] at hk ⊢
      cases hs : rp.getSearchPathFromEnv.1
      · simp
      · rw [hs, if_pos rfl] at hk
        rw [if_pos rfl]
        obtain ⟨k2, hk2, hsurf⟩ := profile_surfaces_failure rp (read_options rp vm)
          rp.getSearchPathFromEnv.2 (prelude_calls vm ++ [Call.getSearchPathFromEnv]) output
        rw [hk2] at hk
        rcases List.mem_append.mp hk with h | h
        · rcases List.mem_append.mp h with h | h
          · rw [hpre k h] at hfail
            simp at hfail
          · simp at h
            subst h
            simp [reports_failure, hs] at hfail
        · simp at h
          subst h
          rcases hsurf hfail with h | h
          · rw [hcont] at h
            simp at h
          · exact h
    rw [run_dispatch rp env vm output c hcmd h0 h1 h2] at hk ⊢
    cases hs : rp.getSearchPathFromEnv.1
    · simp
    · rw [hs, if_pos rfl] at hk
      rw [if_pos rfl]
      obtain ⟨k2, hk2, hsurf⟩ := dispatch_surfaces_failure rp env (read_options rp vm)
        (prelude_calls vm ++ [Call.getSearchPathFromEnv,
          Call.crawl rp.getSearchPathFromEnv.2 (force_of c)]) output
      rw [hk2] at hk
      rcases List.mem_append.mp hk with h | h
      · rcases List.mem_append.mp h with h | h
        · rw [hpre k h] at hfail
          simp at hfail
        · simp at h
          rcases h with rfl | rfl
          · simp [reports_failure, hs] at hfail
          · simp [reports_failure] at hfail
      · simp at h
        subst h
        rcases hsurf hfail with h | h
        · rw [hcont] at h
          simp at h
        · exact h

/-! ## C13 -/

theorem append_firsts_eq (items : List (String × String)) (output : String) :
    append_firsts output items = output ++ join_each "\n" (items.map Prod.fst) := by
  unfold append_firsts
  induction items generalizing output with
  | nil => simp [join_each]
  | cons it rest ih =>
    rw [List.foldl_cons, ih]
    simp [join_each, String.append_assoc]

set_option maxHeartbeats 4000000 in
/-- The rendering of each block of the dispatch chain that returns `true`. -/
theorem dispatch_render (rp : Rosstackage) (env : Environment) (vm : VariablesMap)
    (calls : List Call) (output c : String) (j : OutputJoin)
    (hrow : (c, j) ∈ output_join) (hcmd : vm.command = some c) (h2 : c ≠ "profile")
    (hret : (dispatch rp env (read_options rp vm) calls output).ret = true) :
    (dispatch rp env (read_options rp vm) calls output).output =
      output ++ render j (returned_items rp env vm c) := by
  have e1 : (read_options rp vm).package = resolved_package rp vm := rfl
  have e2 : (read_options rp vm).attrib = vm.attrib.getD "" := rfl
  have e3 : (read_options rp vm).top = vm.top.getD "" := rfl
  have e4 : (read_options rp vm).lang = vm.lang.getD "" := rfl
  have e5 : (read_options rp vm).target = vm.target.getD "" := rfl
  have e6 : (read_options rp vm).deps_only = vm.deps_only := rfl
  have key : ∀ p ∈ output_join, (read_options rp vm).command = p.1 → p.1 ≠ "profile" →
      (dispatch rp env (read_options rp vm) calls output).ret = true →
      (dispatch rp env (read_options rp vm) calls output).output =
        output ++ render p.2 (returned_items rp env vm p.1) := by
    simp only [returned_items]
    generalize read_options rp vm = l at e1 e2 e3 e4 e5 e6 ⊢
    generalize resolved_package rp vm = name at e1 ⊢
    simp only [output_join, List.forall_mem_cons]
    repeat' apply And.intro
    all_goals first
      | (intro p hp
         cases hp)
      | (intro hl h2 hret
         first
         | exact absurd rfl h2
         | (cases hpers : rp.persona <;>
            simp [dispatch, hl, hpers, Rosstackage.getName, ROSPACK_NAME, ROSSTACK_NAME,
              error_exit] at hret ⊢ <;>
            simp only [cmd_find, cmd_list_names, cmd_list_duplicates, cmd_langs, cmd_depends,
              cmd_depends_manifests, cmd_depends_msgsrv, cmd_depends_indent,
              cmd_depends_why, cmd_rosdep, cmd_vcs, cmd_depends_on, cmd_export, cmd_plugins,
              cmd_contents, cmd_contains, error_exit] at hret ⊢ <;>
            split_ifs at hret ⊢ <;>
            simp_all [append_each_eq, append_firsts_eq, render, join_each,
              erase_disabled_eq_filter, disabled_langs, String.append_assoc] <;>
            (cases env.ROS_LANG_DISABLE <;> simp)))
  exact key (c, j) hrow (command_read_options rp vm c hcmd) h2 hret

theorem output_join_names (c : String) (j : OutputJoin) (hrow : (c, j) ∈ output_join) :
    c ≠ "" ∧ c ≠ "help" := by
  have key : ∀ p ∈ output_join, p.1 ≠ "" ∧ p.1 ≠ "help" := by decide
  exact key (c, j) hrow

theorem profile_policy (j : OutputJoin) (hrow : ("profile", j) ∈ output_join) :
    j = OutputJoin.PER_LINE := by
  simp [output_join] at hrow
  exact hrow

theorem profile_render (rp : Rosstackage) (env : Environment) (vm : VariablesMap)
    (sp : List String) (hsp : sp = rp.getSearchPathFromEnv.2)
    (calls : List Call) (output : String)
    (hret : (cmd_profile rp (read_options rp vm) sp calls output).ret = true) :
    (cmd_profile rp (read_options rp vm) sp calls output).output =
      output ++ render OutputJoin.PER_LINE (returned_items rp env vm "profile") := by
  subst hsp
  have hz : (read_options rp vm).zombie_only = vm.zombie_only := rfl
  simp only [cmd_profile, error_exit] at hret ⊢
  split_ifs at hret ⊢
  all_goals simp_all [returned_items, render, append_each_eq]

set_option maxHeartbeats 8000000 in
/-- A block of the dispatch chain returns `true` when the checks of its command
pass and its query answers with success. -/
theorem dispatch_succeeds (rp : Rosstackage) (env : Environment) (vm : VariablesMap)
    (calls : List Call) (output : String) :
    ∀ d ∈ all_commands, ∀ c ∈ d.names, rp.persona ∈ d.personas → vm.command = some c →
      c ≠ "help" → c ≠ "profile" →
      (∀ a ∈ d.requires, supplied rp vm a = true) →
      (∀ o ∈ d.forbids, vm.isSet o = false) →
      query_succeeds rp vm c = true →
      (dispatch rp env (read_options rp vm) calls output).ret = true := by
  simp only [all_commands, grammar, untabled_rows, List.cons_append, List.nil_append,
    List.forall_mem_cons]
  repeat' apply And.intro
  all_goals first
    | (intro d hd
       cases hd)
    | (intro hp hcmd h1 h2 hreq hforb hq
       first
       | exact absurd rfl h1
       | exact absurd rfl h2
       | (cases hpers : rp.persona <;> rw [hpers] at hp <;> (try simp at hp) <;>
          simp [supplied, Locals.supplied, read_options, size_eq_zero_iff] at hreq <;>
          simp [VariablesMap.isSet, forbids_all_but_package, size_eq_zero_iff] at hforb <;>
          simp [query_succeeds, resolved_package, read_options] at hq <;>
          simp [dispatch, read_options, hcmd, hpers, Rosstackage.getName, ROSPACK_NAME,
            ROSSTACK_NAME, cmd_find, cmd_list, cmd_list_names, cmd_list_duplicates, cmd_langs,
            cmd_depends, cmd_depends_manifests, cmd_depends_msgsrv, cmd_depends_indent,
            cmd_depends_why, cmd_rosdep, cmd_vcs, cmd_depends_on, cmd_export, cmd_plugins,
            cmd_cflags_only_I, cmd_cflags_only_other, cmd_libs_only_L, cmd_libs_only_l,
            cmd_libs_only_other, cmd_contents, cmd_contains, size_eq_zero_iff, hreq, hforb,
            hq]))

/-- The `profile` block returns `true` when its checks pass and the profile
collaborator answers with success. -/
theorem profile_succeeds (rp : Rosstackage) (vm : VariablesMap)
    (calls : List Call) (output : String) :
    ∀ d ∈ all_commands, "profile" ∈ d.names →
      (∀ o ∈ d.forbids, vm.isSet o = false) →
      query_succeeds rp vm "profile" = true →
      (cmd_profile rp (read_options rp vm) rp.getSearchPathFromEnv.2 calls output).ret
        = true := by
  simp only [all_commands, grammar, untabled_rows, List.cons_append, List.nil_append,
    List.forall_mem_cons]
  repeat' apply And.intro
  all_goals first
    | (intro hc
       exact absurd hc (by decide))
    | (intro _ hforb hq
       simp [VariablesMap.isSet, size_eq_zero_iff] at hforb
       simp [query_succeeds, read_options] at hq
       simp [cmd_profile, read_options, size_eq_zero_iff, hforb, hq])
    | (intro d hd
       cases hd)

/-- Every command with an output policy is a command of `all_commands`. -/
theorem output_join_covered :
    ∀ p ∈ output_join, ∃ d ∈ all_commands, p.1 ∈ d.names := by
  decide

/-- C13.  A valid run of a command with an output policy (the command exists
under the persona, its required arguments are supplied, none of its forbidden
options is set, the search path is retrieved) whose query answers with success
returns `true` and appends to `output` the rendering, by the policy of the
command, of the sequence the collaborator returned: PER_LINE is each item
followed by a newline (nothing for the empty sequence), SPACE_JOINED each item
followed by a space and then one newline (a single newline for the empty
sequence), RAW the returned text with nothing added. -/
theorem C13_output_rendering (rp : Rosstackage) (env : Environment) (vm : VariablesMap)
    (output c : String) (j : OutputJoin) (d : CommandDescriptor)
    (hrow : (c, j) ∈ output_join) (hd : d ∈ all_commands) (hc : c ∈ d.names)
    (hp : rp.persona ∈ d.personas) (hcmd : vm.command = some c)
    (hreq : ∀ a ∈ d.requires, supplied rp vm a = true)
    (hforb : ∀ o ∈ d.forbids, vm.isSet o = false)
    (hs : rp.getSearchPathFromEnv.1 = true)
    (hq : query_succeeds rp vm c = true) :
    (rospack_run rp env vm output).ret = true ∧
    (rospack_run rp env vm output).output =
      output ++ render j (returned_items rp env vm c) ∧
    render OutputJoin.PER_LINE [] = "" ∧
    render OutputJoin.SPACE_JOINED [] = "\n" ∧
    (∀ items, render OutputJoin.PER_LINE items = join_each "\n" items) ∧
    (∀ items, render OutputJoin.SPACE_JOINED items = join_each " " items ++ "\n") ∧
    (∀ text, render OutputJoin.RAW [text] = text) := by
  refine ⟨?_, ?_, rfl, rfl, fun _ => rfl, fun _ => rfl,
    fun text => by simp [render, join_each]⟩
  · obtain ⟨h0, h1⟩ := output_join_names c j hrow
    by_cases h2 : c = "profile"
    · subst h2
      rw [run_profile rp env vm output hcmd, hs, if_pos rfl]
      exact profile_succeeds rp vm _ output d hd hc hforb hq
    · rw [run_dispatch rp env vm output c hcmd h0 h1 h2, hs, if_pos rfl]
      exact dispatch_succeeds rp env vm _ output d hd c hc hp hcmd h1 h2 hreq hforb hq
  · obtain ⟨h0, h1⟩ := output_join_names c j hrow
    by_cases h2 : c = "profile"
    · subst h2
      have hret := profile_succeeds rp vm
        (prelude_calls vm ++ [Call.getSearchPathFromEnv]) output d hd hc hforb hq
      rw [profile_policy j hrow, run_profile rp env vm output hcmd, hs, if_pos rfl]
      exact profile_render rp env vm _ rfl _ output hret
    · have hret := dispatch_succeeds rp env vm
        (prelude_calls vm ++ [Call.getSearchPathFromEnv,
          Call.crawl rp.getSearchPathFromEnv.2 (force_of c)]) output d hd c hc hp hcmd h1 h2
        hreq hforb hq
      rw [run_dispatch rp env vm output c hcmd h0 h1 h2, hs, if_pos rfl]
      exact dispatch_render rp env vm _ output c j hrow hcmd h2 hret

/-- C13, samples: `vcs pkg` succeeds and is rendered per line, `depends-manifests
pkg` space-joined, and `depends-why pkg --target=dep_b` raw. -/
theorem C13_output_rendering_witness :
    rospack_run (sample_rp Persona.PACKAGE) sample_env vm_vcs "" =
      ⟨true, "type: git\n", [Call.setQuiet false, Call.getSearchPathFromEnv,
        Call.crawl ["/ws"] false, Call.vcs "pkg" false]⟩ ∧
    (rospack_run (sample_rp Persona.PACKAGE) sample_env vm_vcs "").ret = true ∧
    (rospack_run (sample_rp Persona.PACKAGE) sample_env (vm_command_pkg "depends-manifests")
      "").output = "/ws/dep_a/manifest.xml \n" ∧
    (rospack_run (sample_rp Persona.STACK) sample_env
      { vm_command_pkg "depends-why" with target := some "dep_b" } "").output
      = "Dependency chains from pkg to dep_b:\n" :=
  ⟨by decide,
   (C13_output_rendering (sample_rp Persona.PACKAGE) sample_env vm_vcs "" "vcs"
      OutputJoin.PER_LINE
      ⟨["vcs", "vcs0"], [Persona.PACKAGE], [Arg.name], forbids_all_but_package⟩
      (by decide) (by decide) (by decide) (by decide) rfl (by decide) (by decide) rfl
      rfl).1,
   (C13_output_rendering (sample_rp Persona.PACKAGE) sample_env
      (vm_command_pkg "depends-manifests") "" "depends-manifests" OutputJoin.SPACE_JOINED
      ⟨["depends-manifests", "deps-manifests", "depends-indent", "deps-indent"],
        [Persona.PACKAGE, Persona.STACK], [Arg.name], forbids_all_but_package⟩
      (by decide) (by decide) (by decide) (by decide) rfl (by decide) (by decide) rfl
      rfl).2.1.trans (by decide),
   (C13_output_rendering (sample_rp Persona.STACK) sample_env
      { vm_command_pkg "depends-why" with target := some "dep_b" } "" "depends-why"
      OutputJoin.RAW
      ⟨["depends-why"], [Persona.PACKAGE, Persona.STACK], [Arg.name, Arg.target],
        [Opt.top, Opt.length, Opt.zombie_only, Opt.deps_only, Opt.lang, Opt.attrib]⟩
      (by decide) (by decide) (by decide) (by decide) rfl (by decide) (by decide) rfl
      rfl).2.1.trans (by decide)⟩

/-! ## C14 -/

set_option maxHeartbeats 4000000 in
/-- With none of the forbidden options of its row set, no block of the dispatch
chain reports `invalid option(s) given`. -/
theorem dispatch_not_invalid (rp : Rosstackage) (env : Environment) (l : Locals)
    (calls : List Call) (output : String) (d : CommandDescriptor) (c : String)
    (hd : d ∈ grammar) (hc : c ∈ d.names) (hl : l.command = c)
    (h1 : c ≠ "help") (h2 : c ≠ "profile")
    (hforb : ∀ o ∈ d.forbids, l.isSet o = false)
    (hin : Call.log_error "invalid option(s) given" ∈ (dispatch rp env l calls output).calls) :
    Call.log_error "invalid option(s) given" ∈ calls := by
  simp only [grammar, List.mem_cons, List.mem_singleton, List.mem_nil_iff, or_false] at hd
  rcases hd with rfl | rfl | rfl | rfl | rfl | rfl | rfl | rfl | rfl | rfl | rfl | rfl <;>
  simp only [List.mem_cons, List.mem_singleton, List.mem_nil_iff, or_false] at hc <;>
  (try (rcases hc with rfl | rfl | rfl | rfl | rfl)) <;>
  (first | exact absurd rfl h1 | exact absurd rfl h2 | skip) <;>
  simp [Locals.isSet, forbids_all_but_package, size_eq_zero_iff] at hforb <;>
  cases hpers : rp.persona <;>
  simp [dispatch, hl, hpers, Rosstackage.getName, ROSPACK_NAME, ROSSTACK_NAME] at hin <;>
  simp only [cmd_find, cmd_list, cmd_list_names, cmd_list_duplicates, cmd_langs, cmd_depends,
    cmd_depends_why, cmd_depends_on, cmd_export, cmd_plugins, cmd_cflags_only_I,
    cmd_cflags_only_other, cmd_libs_only_L, cmd_libs_only_l, cmd_libs_only_other,
    cmd_contents, cmd_contains, error_exit] at hin <;>
  (try split_ifs at hin) <;>
  simp_all [size_eq_zero_iff]

theorem help_not_invalid (rp : Rosstackage) (l : Locals) (calls : List Call)
    (output : String) (d : CommandDescriptor) (hd : d ∈ grammar) (hc : "help" ∈ d.names)
    (hforb : ∀ o ∈ d.forbids, l.isSet o = false)
    (hin : Call.log_error "invalid option(s) given" ∈ (cmd_help rp l calls output).calls) :
    Call.log_error "invalid option(s) given" ∈ calls := by
  simp only [grammar, List.mem_cons, List.mem_singleton, List.mem_nil_iff, or_false] at hd
  rcases hd with rfl | rfl | rfl | rfl | rfl | rfl | rfl | rfl | rfl | rfl | rfl | rfl <;>
  simp at hc
  simp [Locals.isSet, size_eq_zero_iff] at hforb
  simp only [cmd_help, error_exit] at hin
  split_ifs at hin <;> simp_all [size_eq_zero_iff]

theorem profile_not_invalid (rp : Rosstackage) (l : Locals) (sp : List String)
    (calls : List Call) (output : String) (d : CommandDescriptor) (hd : d ∈ grammar)
    (hc : "profile" ∈ d.names) (hforb : ∀ o ∈ d.forbids, l.isSet o = false)
    (hin : Call.log_error "invalid option(s) given" ∈
      (cmd_profile rp l sp calls output).calls) :
    Call.log_error "invalid option(s) given" ∈ calls := by
  simp only [grammar, List.mem_cons, List.mem_singleton, List.mem_nil_iff, or_false] at hd
  rcases hd with rfl | rfl | rfl | rfl | rfl | rfl | rfl | rfl | rfl | rfl | rfl | rfl <;>
  simp at hc
  simp [Locals.isSet, size_eq_zero_iff] at hforb
  simp only [cmd_profile, error_exit] at hin
  split_ifs at hin <;> simp_all [size_eq_zero_iff]

theorem no_error_before_dispatch (vm : VariablesMap) (sp : List String) (force : Bool)
    (msg : String) :
    Call.log_error msg ∉
      prelude_calls vm ++ [Call.getSearchPathFromEnv, Call.crawl sp force] := by
  intro h
  have := (before_dispatch_plain vm sp force _ h).2
  simp [Call.isLogError] at this

theorem no_error_before_profile (vm : VariablesMap) (msg : String) :
    Call.log_error msg ∉ prelude_calls vm ++ [Call.getSearchPathFromEnv] := by
  intro h
  have := (before_profile_plain vm _ h).2
  simp [Call.isLogError] at this

theorem no_error_in_prelude (vm : VariablesMap) (msg : String) :
    Call.log_error msg ∉ prelude_calls vm := by
  intro h
  have := (prelude_calls_plain vm _ h).2
  simp [Call.isLogError] at this

/-- C14.  For every row of the table of section 4.1 and every name of the row:
an option set in which none of the options of the row's forbids column is set
never makes the run report `invalid option(s) given`, whatever else the option
set holds. -/
theorem C14_allowed_options_accepted (rp : Rosstackage) (env : Environment)
    (vm : VariablesMap) (output : String) (d : CommandDescriptor) (c : String)
    (hd : d ∈ grammar) (hc : c ∈ d.names) (hcmd : vm.command = some c)
    (hforb : ∀ o ∈ d.forbids, vm.isSet o = false) :
    Call.log_error "invalid option(s) given" ∉ (rospack_run rp env vm output).calls := by
  have hforb2 : ∀ o ∈ d.forbids, (read_options rp vm).isSet o = false :=
    fun o ho => (isSet_read_options rp vm o).trans (hforb o ho)
  intro hin
  by_cases h1 : c = "help"
  · subst h1
    rw [run_help rp env vm output hcmd] at hin
    exact no_error_in_prelude vm _ (help_not_invalid rp _ _ output d hd hc hforb2 hin)
  by_cases h2 : c = "profile"
  · subst h2
    rw [run_profile rp env vm output hcmd] at hin
    cases hs : rp.getSearchPathFromEnv.1
    · rw [hs] at hin
      exact no_error_before_profile vm _ hin
    · rw [hs, if_pos rfl] at hin
      exact no_error_before_profile vm _
        (profile_not_invalid rp _ _ _ output d hd hc hforb2 hin)
  have h0 := grammar_name_ne_empty d c hd hc
  rw [run_dispatch rp env vm output c hcmd h0 h1 h2] at hin
  cases hs : rp.getSearchPathFromEnv.1
  · rw [hs] at hin
    exact no_error_before_profile vm _ hin
  · rw [hs, if_pos rfl] at hin
    exact no_error_before_dispatch vm _ _ _
      (dispatch_not_invalid rp env _ _ output d c hd hc
        (command_read_options rp vm c hcmd) h1 h2 hforb2 hin)

/-- C14, the samples of the claim: `help` accepts `target`; `profile` accepts
`length` and `zombie-only`; `plugins` accepts `top`, `deps-only` and `lang`;
`export` accepts `deps-only`; `cflags-only-I` and `libs-only-other` accept
`deps-only`, `lang` and `attrib`: each of these runs succeeds. -/
theorem C14_allowed_options_accepted_witness :
    Call.log_error "invalid option(s) given" ∉
      (rospack_run (sample_rp Persona.PACKAGE) sample_env vm_plugins_all "").calls ∧
    (rospack_run (sample_rp Persona.STACK) sample_env vm_help_target "").ret = true ∧
    (rospack_run (sample_rp Persona.STACK) sample_env vm_profile_length "").ret = true ∧
    (rospack_run (sample_rp Persona.PACKAGE) sample_env vm_plugins_all "").ret = true ∧
    (rospack_run (sample_rp Persona.PACKAGE) sample_env vm_export_deps_only "").ret = true ∧
    (rospack_run (sample_rp Persona.PACKAGE) sample_env (vm_flags_all "cflags-only-I")
      "").ret = true ∧
    (rospack_run (sample_rp Persona.PACKAGE) sample_env (vm_flags_all "libs-only-other")
      "").ret = true :=
  ⟨C14_allowed_options_accepted (sample_rp Persona.PACKAGE) sample_env vm_plugins_all ""
      ⟨["plugins"], [Persona.PACKAGE], [Arg.name, Arg.attrib],
        [Opt.target, Opt.length, Opt.zombie_only]⟩ "plugins" (by decide) (by decide) rfl
      (by decide),
    by decide, by decide, by decide, by decide, by decide, by decide⟩

/-! ## C15 -/

set_option maxHeartbeats 4000000 in
theorem dispatch_missing_shared (rp : Rosstackage) (env : Environment) (l : Locals)
    (calls : List Call) (output c : String) (hc : c ∈ shared_name_commands)
    (hl : l.command = c) (hname : l.package = "") :
    dispatch rp env l calls output = error_exit calls output "no package/stack given" := by
  simp only [shared_name_commands, List.mem_cons, List.mem_singleton, List.mem_nil_iff,
    or_false] at hc
  rcases hc with rfl | rfl | rfl | rfl | rfl | rfl | rfl | rfl | rfl | rfl | rfl <;>
  cases hpers : rp.persona <;>
  simp [dispatch, hl, hpers, hname, size_eq_zero_iff, Rosstackage.getName, ROSPACK_NAME,
    ROSSTACK_NAME, cmd_find, cmd_depends, cmd_depends_manifests, cmd_depends_indent,
    cmd_depends_on]

theorem dispatch_missing_why (rp : Rosstackage) (env : Environment) (l : Locals)
    (calls : List Call) (output c : String) (hc : c = "depends-why" ∨ c = "deps-why")
    (hl : l.command = c) (hmiss : l.package = "" ∨ l.target = "") :
    dispatch rp env l calls output =
      error_exit calls output "no package/stack or target given" := by
  rcases hc with rfl | rfl <;>
  cases hpers : rp.persona <;>
  simp [dispatch, hl, hpers, hmiss, size_eq_zero_iff, Rosstackage.getName, ROSPACK_NAME,
    ROSSTACK_NAME, cmd_depends_why]

/-- C15, as amended.  With the search path retrieved, under either persona: a
command that both personas have and that requires a name, run with no name,
reports `no package/stack given`, the same text whatever the persona; and
`depends-why` (or `deps-why`) reports `no package/stack or target given` both
when the name is missing and when the target is missing. -/
theorem C15_missing_messages (rp : Rosstackage) (env : Environment) (vm : VariablesMap)
    (output c : String) (hcmd : vm.command = some c)
    (hs : rp.getSearchPathFromEnv.1 = true) :
    (c ∈ shared_name_commands → resolved_package rp vm = "" →
      (rospack_run rp env vm output).calls.getLast? =
        some (Call.log_error "no package/stack given")) ∧
    ((c = "depends-why" ∨ c = "deps-why") →
      (resolved_package rp vm = "" ∨ vm.target.getD "" = "") →
      (rospack_run rp env vm output).calls.getLast? =
        some (Call.log_error "no package/stack or target given")) := by
  constructor
  · intro hc hname
    have hne : c ≠ "" ∧ c ≠ "help" ∧ c ≠ "profile" := by
      simp only [shared_name_commands, List.mem_cons, List.mem_singleton, List.mem_nil_iff,
        or_false] at hc
      rcases hc with rfl | rfl | rfl | rfl | rfl | rfl | rfl | rfl | rfl | rfl | rfl <;>
        decide
    rw [run_dispatch rp env vm output c hcmd hne.1 hne.2.1 hne.2.2, hs, if_pos rfl,
      dispatch_missing_shared rp env _ _ output c hc (command_read_options rp vm c hcmd)
        hname]
    simp [error_exit]
  · intro hc hmiss
    have hne : c ≠ "" ∧ c ≠ "help" ∧ c ≠ "profile" := by
      rcases hc with rfl | rfl <;> decide
    rw [run_dispatch rp env vm output c hcmd hne.1 hne.2.1 hne.2.2, hs, if_pos rfl,
      dispatch_missing_why rp env _ _ output c hc (command_read_options rp vm c hcmd)
        hmiss]
    simp [error_exit]

/-- C15, samples: `find` with no name under the STACK persona, and `depends-why`
with a target and no name. -/
theorem C15_missing_messages_witness :
    (rospack_run (sample_rp Persona.STACK) sample_env vm_find "").calls.getLast? =
      some (Call.log_error "no package/stack given") ∧
    (rospack_run (sample_rp Persona.PACKAGE) sample_env vm_why_target_only "").calls.getLast?
      = some (Call.log_error "no package/stack or target given") :=
  ⟨(C15_missing_messages (sample_rp Persona.STACK) sample_env vm_find "" "find" rfl rfl).1
      (by decide) rfl,
   (C15_missing_messages (sample_rp Persona.PACKAGE) sample_env vm_why_target_only ""
      "depends-why" rfl rfl).2 (Or.inl rfl) (Or.inl rfl)⟩

/-- C15 as stated fails: `find` with no name logs the very same message under
the PACKAGE persona and under the STACK persona, and `depends-why` logs the very
same message with a name and no target as with a target and no name. -/
theorem C15_counterexample :
    (rospack_run (sample_rp Persona.PACKAGE) sample_env vm_find "").calls.getLast? =
      some (Call.log_error "no package/stack given") ∧
    (rospack_run (sample_rp Persona.STACK) sample_env vm_find "").calls.getLast? =
      some (Call.log_error "no package/stack given") ∧
    (rospack_run (sample_rp Persona.PACKAGE) sample_env (vm_command_pkg "depends-why")
      "").calls.getLast? = some (Call.log_error "no package/stack or target given") ∧
    (rospack_run (sample_rp Persona.PACKAGE) sample_env vm_why_target_only
      "").calls.getLast? = some (Call.log_error "no package/stack or target given") := by
  decide

/-! ## C16 -/

theorem prelude_no_crawl (vm : VariablesMap) :
    (prelude_calls vm).filter Call.isCrawl = [] := by
  unfold prelude_calls
  cases vm.package <;> simp [Call.isCrawl]

theorem force_of_eq (c : String) (h2 : c ≠ "profile") :
    force_of c = decide (c ∈ forced_crawl_commands) := by
  rw [Bool.eq_iff_iff]
  simp [force_of, forced_crawl_commands, h2, or_assoc]

theorem filter_crawl_last (calls : List Call) (k : Call) (hk : k.isCrawl = false) :
    (calls ++ [k]).filter Call.isCrawl = calls.filter Call.isCrawl := by
  simp [List.filter_append, hk]

theorem before_dispatch_crawl (vm : VariablesMap) (sp : List String) (force : Bool) :
    (prelude_calls vm ++ [Call.getSearchPathFromEnv, Call.crawl sp force]).filter
      Call.isCrawl = [Call.crawl sp force] := by
  rw [List.filter_append, prelude_no_crawl]
  rfl

theorem before_profile_crawl (vm : VariablesMap) :
    (prelude_calls vm ++ [Call.getSearchPathFromEnv]).filter Call.isCrawl = [] := by
  rw [List.filter_append, prelude_no_crawl]
  rfl

/-- C16.  For a command that is not empty and is neither `help` nor `profile`,
when the search path is retrieved, the run makes exactly one crawl, of the
retrieved search path, forced exactly when the command is one of `depends-on`,
`depends-on1`, `langs`, `list-duplicates`; for `help`, `profile` and the absent
or empty command the run makes no crawl. -/
theorem C16_crawl_split (rp : Rosstackage) (env : Environment) (vm : VariablesMap)
    (output : String) :
    (∀ c, vm.command = some c → c ≠ "" → c ≠ "help" → c ≠ "profile" →
      rp.getSearchPathFromEnv.1 = true →
      (rospack_run rp env vm output).calls.filter Call.isCrawl =
        [Call.crawl rp.getSearchPathFromEnv.2 (decide (c ∈ forced_crawl_commands))]) ∧
    ((vm.command = none ∨ vm.command = some "" ∨ vm.command = some "help" ∨
        vm.command = some "profile") →
      (rospack_run rp env vm output).calls.filter Call.isCrawl = []) := by
  constructor
  · intro c hcmd h0 h1 h2 hs
    rw [run_dispatch rp env vm output c hcmd h0 h1 h2, hs, if_pos rfl]
    obtain ⟨k, hk, hkc, _⟩ := dispatch_shape rp env (read_options rp vm)
      (prelude_calls vm ++ [Call.getSearchPathFromEnv,
        Call.crawl rp.getSearchPathFromEnv.2 (force_of c)]) output
    rw [hk, filter_crawl_last _ k hkc, before_dispatch_crawl, force_of_eq c h2]
  · rintro (h | h | h | h)
    · rw [run_no_command rp env vm output (Or.inl h)]
      rfl
    · rw [run_no_command rp env vm output (Or.inr h)]
      rfl
    · rw [run_help rp env vm output h]
      obtain ⟨k, hk, hkc, _⟩ := help_shape rp (read_options rp vm) (prelude_calls vm) output
      rw [hk, filter_crawl_last _ k hkc, prelude_no_crawl]
    · rw [run_profile rp env vm output h]
      cases hs : rp.getSearchPathFromEnv.1
      · exact before_profile_crawl vm
      · rw [if_pos rfl]
        obtain ⟨k, hk, hkc, _⟩ := profile_shape rp (read_options rp vm)
          rp.getSearchPathFromEnv.2 (prelude_calls vm ++ [Call.getSearchPathFromEnv]) output
        rw [hk, filter_crawl_last _ k hkc, before_profile_crawl]

/-- C16, samples: `depends-on pkg` forces the crawl, `find pkg` does not, and
`profile` makes none. -/
theorem C16_crawl_split_witness :
    (rospack_run (sample_rp Persona.PACKAGE) sample_env (vm_command_pkg "depends-on")
      "").calls.filter Call.isCrawl = [Call.crawl ["/ws"] true] ∧
    (rospack_run (sample_rp Persona.PACKAGE) sample_env (vm_command_pkg "find")
      "").calls.filter Call.isCrawl = [Call.crawl ["/ws"] false] ∧
    (rospack_run (sample_rp Persona.PACKAGE) sample_env vm_profile
      "").calls.filter Call.isCrawl = [] :=
  ⟨(C16_crawl_split (sample_rp Persona.PACKAGE) sample_env (vm_command_pkg "depends-on")
      "").1 "depends-on" rfl (by decide) (by decide) (by decide) rfl,
   (C16_crawl_split (sample_rp Persona.PACKAGE) sample_env (vm_command_pkg "find")
      "").1 "find" rfl (by decide) (by decide) (by decide) rfl,
   (C16_crawl_split (sample_rp Persona.PACKAGE) sample_env vm_profile
      "").2 (Or.inr (Or.inr (Or.inr rfl)))⟩

/-! ## C17 -/

set_option maxHeartbeats 4000000 in
/-- C18.  For each command of the closure family, in a valid run (the command
exists under the persona, the name is not empty, none of the forbidden options
is set, the search path is retrieved), the only index query is the query of the
command, with the name and with the direct-only flag of the table: `false` for
`depends`, `deps`, `depends-on`, `rosdep`, `rosdeps`, `vcs`, `depends-manifests`,
`depends-msgsrv`, `depends-indent` and their aliases, `true` for `depends1`,
`deps1`, `depends-on1`, `rosdep0`, `rosdeps0`, `vcs0`. -/
theorem C18_direct_only_flag (rp : Rosstackage) (env : Environment) (vm : VariablesMap)
    (output c : String) (q : Closure) (direct : Bool)
    (hrow : (c, q, direct) ∈ direct_only_table)
    (hknown : c ∈ known_commands rp.persona) (hcmd : vm.command = some c)
    (hname : resolved_package rp vm ≠ "")
    (hforb : ∀ o ∈ forbids_all_but_package, vm.isSet o = false)
    (hs : rp.getSearchPathFromEnv.1 = true) :
    (rospack_run rp env vm output).calls.filter Call.isIndexQuery =
      [q.call (resolved_package rp vm) direct] := by
  have hforb2 : ∀ o ∈ forbids_all_but_package, (read_options rp vm).isSet o = false :=
    fun o ho => (isSet_read_options rp vm o).trans (hforb o ho)
  have hq := prelude_no_query vm
  have hpk : (read_options rp vm).package = resolved_package rp vm := rfl
  have key : ∀ p ∈ direct_only_table, p.1 ∈ known_commands rp.persona →
      vm.command = some p.1 →
      (rospack_run rp env vm output).calls.filter Call.isIndexQuery =
        [p.2.1.call (resolved_package rp vm) p.2.2] := by
    simp only [direct_only_table, List.forall_mem_cons]
    repeat' apply And.intro
    all_goals first
      | (intro p hp
         cases hp)
      | (intro hknown hcmd
         have hl := command_read_options rp vm _ hcmd
         rw [run_dispatch rp env vm output _ hcmd (by decide) (by decide) (by decide), hs,
           if_pos rfl]
         generalize read_options rp vm = l at hl hforb2 hpk
         simp [Locals.isSet, forbids_all_but_package, size_eq_zero_iff] at hforb2
         obtain ⟨f1, f2, f3, f4, f5, f6, f7⟩ := hforb2
         cases hpers : rp.persona <;> rw [hpers] at hknown <;>
           first
           | exact absurd hknown (by decide)
           | (simp [dispatch, hl, hpers, Rosstackage.getName, ROSPACK_NAME, ROSSTACK_NAME,
               cmd_depends, cmd_depends_manifests, cmd_depends_msgsrv, cmd_depends_indent,
               cmd_rosdep, cmd_vcs, cmd_depends_on, f1, f2, f3, f4, f5, f6, f7,
               size_eq_zero_iff, hpk, hname]
              split <;>
              simp [List.filter_append, hq, Call.isIndexQuery, Closure.call]))
  exact key (c, q, direct) hrow hknown hcmd

/-- C18, samples: `depends1 pkg` asks for the direct dependencies only,
`depends pkg` for all of them. -/
theorem C18_direct_only_flag_witness :
    (rospack_run (sample_rp Persona.PACKAGE) sample_env (vm_command_pkg "depends1")
      "").calls.filter Call.isIndexQuery = [Call.deps "pkg" true] ∧
    (rospack_run (sample_rp Persona.STACK) sample_env (vm_command_pkg "depends")
      "").calls.filter Call.isIndexQuery = [Call.deps "pkg" false] :=
  ⟨C18_direct_only_flag (sample_rp Persona.PACKAGE) sample_env (vm_command_pkg "depends1") ""
      "depends1" Closure.deps true (by decide) (by decide) rfl (by decide) (by decide) rfl,
   C18_direct_only_flag (sample_rp Persona.STACK) sample_env (vm_command_pkg "depends") ""
      "depends" Closure.deps false (by decide) (by decide) rfl (by decide) (by decide) rfl⟩

/-! ## C19 -/

/-- C19.  `help` with none of package, top, length, zombie-only, deps-only,
lang, attrib set succeeds under either persona and appends exactly the usage
text of the persona; its calls are `setQuiet`, the directory lookup and `usage`:
the search path is not retrieved, no crawl and no index query is made, and the
answer the search-path retrieval would give plays no part. -/
theorem C19_help (rp : Rosstackage) (env : Environment) (vm : VariablesMap)
    (output : String) (hcmd : vm.command = some "help")
    (hforb : ∀ o ∈ [Opt.package, Opt.top, Opt.length, Opt.zombie_only, Opt.deps_only, Opt.lang,
      Opt.attrib], vm.isSet o = false) :
    rospack_run rp env vm output =
      ⟨true, output ++ rp.usage, [Call.setQuiet vm.quiet, Call.inStackage, Call.usage]⟩ ∧
    Call.getSearchPathFromEnv ∉ (rospack_run rp env vm output).calls ∧
    (rospack_run rp env vm output).calls.filter Call.isCrawl = [] ∧
    (rospack_run rp env vm output).calls.filter Call.isIndexQuery = [] ∧
    (rp.usage = Rospack_usage ∨ rp.usage = Rosstack_usage) := by
  have hforb2 : ∀ o ∈ [Opt.package, Opt.top, Opt.length, Opt.zombie_only, Opt.deps_only,
      Opt.lang, Opt.attrib], (read_options rp vm).isSet o = false :=
    fun o ho => (isSet_read_options rp vm o).trans (hforb o ho)
  have hpk : vm.package = none := by
    have := hforb Opt.package (by decide)
    simpa [VariablesMap.isSet] using this
  have hrun : rospack_run rp env vm output =
      ⟨true, output ++ rp.usage, [Call.setQuiet vm.quiet, Call.inStackage, Call.usage]⟩ := by
    rw [run_help rp env vm output hcmd]
    generalize read_options rp vm = l at hforb2
    simp [Locals.isSet, size_eq_zero_iff] at hforb2
    obtain ⟨f1, f2, f3, f4, f5, f6, f7⟩ := hforb2
    simp [cmd_help, f1, f2, f3, f4, f5, f6, f7, size_eq_zero_iff, prelude_calls, hpk]
  rw [hrun]
  refine ⟨rfl, by simp, rfl, rfl, ?_⟩
  unfold Rosstackage.usage
  cases rp.persona
  · exact Or.inl rfl
  · exact Or.inr rfl

/-- C19, a sample: `help` succeeds with a collaborator whose search-path
retrieval fails. -/
theorem C19_help_witness :
    (sample_rp_no_path Persona.STACK).getSearchPathFromEnv.1 = false ∧
    rospack_run (sample_rp_no_path Persona.STACK) sample_env (with_command no_options "help")
      "" = ⟨true, Rosstack_usage, [Call.setQuiet false, Call.inStackage, Call.usage]⟩ :=
  ⟨rfl, (C19_help (sample_rp_no_path Persona.STACK) sample_env
    (with_command no_options "help") "" rfl (by decide)).1.trans rfl⟩

/-! ## C20 -/

set_option maxHeartbeats 4000000 in
/-- The one call a flag command or `plugins` adds is an error report, the export
query for (package, `cpp`, the attribute of the command, deps-only), or the
plugins query. -/
theorem ignoring_block_calls (rp : Rosstackage) (env : Environment) (l : Locals)
    (calls : List Call) (output c : String) (os : List Opt)
    (hrow : (c, os) ∈ ignored_options) (hl : l.command = c) :
    ∀ k ∈ (dispatch rp env l calls output).calls,
      k ∈ calls ∨ k.isLogError = true ∨ k = Call.plugins l.package l.attrib l.top ∨
      ∃ attr, (c, attr) ∈ flag_attribute ∧ k = Call.exports l.package "cpp" attr l.deps_only := by
  simp only [ignored_options, List.mem_cons, List.mem_singleton, List.mem_nil_iff, or_false,
    Prod.mk.injEq] at hrow
  rcases hrow with ⟨rfl, rfl⟩ | ⟨rfl, rfl⟩ | ⟨rfl, rfl⟩ | ⟨rfl, rfl⟩ | ⟨rfl, rfl⟩ |
    ⟨rfl, rfl⟩ <;>
  cases hpers : rp.persona <;>
  simp [dispatch, hl, hpers, Rosstackage.getName, ROSPACK_NAME, ROSSTACK_NAME,
    -List.mem_append] <;>
  simp only [cmd_plugins, cmd_cflags_only_I, cmd_cflags_only_other, cmd_libs_only_L,
    cmd_libs_only_l, cmd_libs_only_other, error_exit] <;>
  (try split_ifs) <;>
  (intro k hk
   rcases List.mem_append.mp hk with h | h
   · exact Or.inl h
   · rw [List.mem_singleton] at h
     subst h
     simp [Call.isLogError, flag_attribute])

set_option maxHeartbeats 4000000 in
/-- C20.  For each of the five compiler and linker flag commands with respect to
`lang` and `attrib`, and for `plugins` with respect to `deps-only` and `lang`:
two option sets that agree on everything else give equal runs (same flag, same
output, same calls) with the same collaborator, whatever the values or the
presence of the ignored options; and every export query such a run makes is for
the resolved package, language `cpp`, the attribute of the command (`cflags` or
`lflags`) and the deps-only flag. -/
theorem C20_ignored_options (rp : Rosstackage) (env : Environment) (vm1 vm2 : VariablesMap)
    (output c : String) (os : List Opt) (hrow : (c, os) ∈ ignored_options)
    (hcmd : vm1.command = some c) (hagree : agree_except os vm1 vm2) :
    rospack_run rp env vm1 output = rospack_run rp env vm2 output ∧
    (∀ name lang attrib deps_only,
      Call.exports name lang attrib deps_only ∈ (rospack_run rp env vm1 output).calls →
      name = resolved_package rp vm1 ∧ lang = "cpp" ∧ (c, attrib) ∈ flag_attribute ∧
      deps_only = vm1.deps_only) := by
  have hne : c ≠ "" ∧ c ≠ "help" ∧ c ≠ "profile" := by
    simp only [ignored_options, List.mem_cons, List.mem_singleton, List.mem_nil_iff, or_false,
      Prod.mk.injEq] at hrow
    rcases hrow with ⟨rfl, rfl⟩ | ⟨rfl, rfl⟩ | ⟨rfl, rfl⟩ | ⟨rfl, rfl⟩ | ⟨rfl, rfl⟩ |
      ⟨rfl, rfl⟩ <;> decide
  constructor
  · have hcmd2 : vm2.command = some c := hagree.1 ▸ hcmd
    rw [run_dispatch rp env vm1 output c hcmd hne.1 hne.2.1 hne.2.2,
      run_dispatch rp env vm2 output c hcmd2 hne.1 hne.2.1 hne.2.2]
    obtain ⟨c1, p1, t1, d1, l1, a1, o1, n1, z1, q1⟩ := vm1
    obtain ⟨c2, p2, t2, d2, l2, a2, o2, n2, z2, q2⟩ := vm2
    simp only [ignored_options, List.mem_cons, List.mem_singleton, List.mem_nil_iff, or_false,
      Prod.mk.injEq] at hrow
    rcases hrow with ⟨rfl, rfl⟩ | ⟨rfl, rfl⟩ | ⟨rfl, rfl⟩ | ⟨rfl, rfl⟩ | ⟨rfl, rfl⟩ |
      ⟨rfl, rfl⟩ <;>
    · simp [agree_except] at hagree
      obtain ⟨rfl, rfl, rfl, rfl, rfl, rfl, rfl, hrest⟩ := hagree
      simp at hcmd
      subst hcmd
      cases hs : rp.getSearchPathFromEnv.1 <;>
      simp [dispatch, read_options, prelude_calls, Rosstackage.getName, ROSPACK_NAME,
        ROSSTACK_NAME, cmd_plugins, cmd_cflags_only_I, cmd_cflags_only_other,
        cmd_libs_only_L, cmd_libs_only_l, cmd_libs_only_other, hrest]
  · intro name lang attrib deps_only hin
    rw [run_dispatch rp env vm1 output c hcmd hne.1 hne.2.1 hne.2.2] at hin
    cases hs : rp.getSearchPathFromEnv.1
    · rw [hs] at hin
      have := (before_profile_plain vm1 _ hin).1
      simp [Call.isIndexQuery] at this
    · rw [hs, if_pos rfl] at hin
      rcases ignoring_block_calls rp env _ _ output c os hrow
        (command_read_options rp vm1 c hcmd) _ hin with h | h | h | ⟨attr, hattr, h⟩
      · have := (before_dispatch_plain vm1 _ _ _ h).1
        simp [Call.isIndexQuery] at this
      · simp [Call.isLogError] at h
      · simp at h
      · simp only [Call.exports.injEq] at h
        obtain ⟨rfl, rfl, rfl, rfl⟩ := h
        exact ⟨rfl, rfl, hattr, rfl⟩

/-- C20, a sample: `libs-only-other pkg --deps-only --lang=java --attrib=other`
runs exactly as `libs-only-other pkg --deps-only`. -/
theorem C20_ignored_options_witness :
    rospack_run (sample_rp Persona.PACKAGE) sample_env (vm_flags_all "libs-only-other") "" =
      rospack_run (sample_rp Persona.PACKAGE) sample_env
        { vm_command_pkg "libs-only-other" with deps_only := true } "" :=
  (C20_ignored_options (sample_rp Persona.PACKAGE) sample_env (vm_flags_all "libs-only-other")
    { vm_command_pkg "libs-only-other" with deps_only := true } "" "libs-only-other"
    [Opt.lang, Opt.attrib] (by decide) rfl (by decide)).1

/-! ## C21 -/

theorem same_but_calls_ite {c1 c2 : List Call} {c : Prop} [Decidable c]
    {r1 s1 r2 s2 : Outcome} (h1 : c → same_but_calls c1 c2 r1 r2)
    (h2 : ¬c → same_but_calls c1 c2 s1 s2) :
    same_but_calls c1 c2 (if c then r1 else s1) (if c then r2 else s2) := by
  split
  · exact h1 ‹_›
  · exact h2 ‹_›

theorem same_but_calls_leaf (c1 c2 : List Call) (ret : Bool) (output : String) (k : Call) :
    same_but_calls c1 c2 ⟨ret, output, c1 ++ [k]⟩ ⟨ret, output, c2 ++ [k]⟩ :=
  ⟨rfl, rfl, k, rfl, rfl⟩

set_option maxHeartbeats 4000000 in
/-- Apart from the blocks of `list`, `list-names`, `list-duplicates` and `langs`,
no block of the dispatch chain reads the local `package_given`, and the calls
made before only carry over. -/
theorem dispatch_ignores_package_given (rp : Rosstackage) (env : Environment) (l : Locals)
    (c1 c2 : List Call) (output : String) (given : Bool)
    (n1 : l.command ≠ "list") (n2 : l.command ≠ "list-names")
    (n3 : l.command ≠ "list-duplicates") (n4 : l.command ≠ "langs") :
    same_but_calls c1 c2 (dispatch rp env l c1 output)
      (dispatch rp env { l with package_given := given } c2 output) := by
  unfold dispatch
  repeat' (apply same_but_calls_ite <;> intro _)
  all_goals first
    | exact same_but_calls_leaf c1 c2 _ _ _
    | (rename_i h
       simp [n1, n2, n3, n4] at h)

/-- With none of the forbidden options of its row set, a run never reports
`invalid option(s) given`. -/
theorem run_not_invalid (rp : Rosstackage) (env : Environment) (vm : VariablesMap)
    (output : String) (d : CommandDescriptor) (c : String) (hd : d ∈ grammar)
    (hc : c ∈ d.names) (hcmd : vm.command = some c)
    (hforb : ∀ o ∈ d.forbids, (read_options rp vm).isSet o = false) :
    Call.log_error "invalid option(s) given" ∉ (rospack_run rp env vm output).calls := by
  intro hin
  by_cases h1 : c = "help"
  · subst h1
    rw [run_help rp env vm output hcmd] at hin
    exact no_error_in_prelude vm _ (help_not_invalid rp _ _ output d hd hc hforb hin)
  by_cases h2 : c = "profile"
  · subst h2
    rw [run_profile rp env vm output hcmd] at hin
    cases hs : rp.getSearchPathFromEnv.1
    · rw [hs] at hin
      exact no_error_before_profile vm _ hin
    · rw [hs, if_pos rfl] at hin
      exact no_error_before_profile vm _ (profile_not_invalid rp _ _ _ output d hd hc hforb hin)
  have h0 := grammar_name_ne_empty d c hd hc
  rw [run_dispatch rp env vm output c hcmd h0 h1 h2] at hin
  cases hs : rp.getSearchPathFromEnv.1
  · rw [hs] at hin
    exact no_error_before_profile vm _ hin
  · rw [hs, if_pos rfl] at hin
    exact no_error_before_dispatch vm _ _ _
      (dispatch_not_invalid rp env _ _ output d c hd hc (command_read_options rp vm c hcmd)
        h1 h2 hforb hin)

theorem erase_lookup (quiet : Bool) (rest : List Call) :
    ([Call.setQuiet quiet, Call.inStackage] ++ rest).erase Call.inStackage =
      [Call.setQuiet quiet] ++ rest := by
  simp [List.erase_cons]

theorem erase_lookup_absent (quiet : Bool) (msg : String) :
    [Call.setQuiet quiet, Call.log_error msg].erase Call.inStackage =
      [Call.setQuiet quiet, Call.log_error msg] := by
  simp [List.erase_cons]

theorem read_options_with_package (rp : Rosstackage) (vm : VariablesMap)
    (hpk : vm.package = none) :
    read_options rp (with_package vm rp.inStackage.2) =
      { read_options rp vm with package_given := true } := by
  simp [read_options, with_package, hpk]

/-- C21.  With the package option absent and a name found from the directory
context: a command whose row forbids the package option is not reported as
having an invalid option when none of the other forbidden options is set; for
every other command, the commands that require a name among them, the run
returns the same flag and leaves the same output as the run with that name
given explicitly, and makes the same calls, the directory lookup apart; and the
name counts as supplied. -/
theorem C21_inferred_package (rp : Rosstackage) (env : Environment) (vm : VariablesMap)
    (output c : String) (hcmd : vm.command = some c) (hpk : vm.package = none)
    (hn : rp.inStackage.2 ≠ "") :
    (∀ d ∈ grammar, c ∈ d.names → Opt.package ∈ d.forbids →
      (∀ o ∈ d.forbids, o ≠ Opt.package → vm.isSet o = false) →
      Call.log_error "invalid option(s) given" ∉ (rospack_run rp env vm output).calls) ∧
    (c ∉ package_forbidding_commands →
      (rospack_run rp env vm output).ret =
        (rospack_run rp env (with_package vm rp.inStackage.2) output).ret ∧
      (rospack_run rp env vm output).output =
        (rospack_run rp env (with_package vm rp.inStackage.2) output).output ∧
      (rospack_run rp env vm output).calls.erase Call.inStackage =
        (rospack_run rp env (with_package vm rp.inStackage.2) output).calls) ∧
    (∀ d ∈ grammar, Arg.name ∈ d.requires → ∀ name ∈ d.names,
      name ∉ package_forbidding_commands) ∧
    supplied rp vm Arg.name = true := by
  refine ⟨?_, ?_, by decide, ?_⟩
  · intro d hd hc _ hforb
    refine run_not_invalid rp env vm output d c hd hc hcmd (fun o ho => ?_)
    rw [isSet_read_options]
    by_cases hop : o = Opt.package
    · subst hop
      simp [VariablesMap.isSet, hpk]
    · exact hforb o ho hop
  · intro hc
    simp only [package_forbidding_commands, List.mem_cons, List.mem_singleton,
      List.mem_nil_iff, or_false, not_or] at hc
    obtain ⟨h1, h2, n1, n2, n3, n4⟩ := hc
    have hcmd2 : (with_package vm rp.inStackage.2).command = some c := hcmd
    have hp1 : prelude_calls vm = [Call.setQuiet vm.quiet, Call.inStackage] := by
      simp [prelude_calls, hpk]
    have hp2 : prelude_calls (with_package vm rp.inStackage.2) = [Call.setQuiet vm.quiet] :=
      rfl
    by_cases h0 : c = ""
    · subst h0
      rw [run_no_command rp env vm output (Or.inr hcmd),
        run_no_command rp env _ output (Or.inr hcmd2)]
      exact ⟨rfl, rfl, erase_lookup_absent _ _⟩
    rw [run_dispatch rp env vm output c hcmd h0 h1 h2,
      run_dispatch rp env _ output c hcmd2 h0 h1 h2, hp1, hp2]
    cases hs : rp.getSearchPathFromEnv.1
    · exact ⟨rfl, rfl, erase_lookup _ _⟩
    · rw [if_pos rfl, if_pos rfl, read_options_with_package rp vm hpk]
      have hl := command_read_options rp vm c hcmd
      obtain ⟨e1, e2, k, e3, e4⟩ := dispatch_ignores_package_given rp env (read_options rp vm)
        ([Call.setQuiet vm.quiet, Call.inStackage] ++ [Call.getSearchPathFromEnv,
          Call.crawl rp.getSearchPathFromEnv.2 (force_of c)])
        ([Call.setQuiet vm.quiet] ++ [Call.getSearchPathFromEnv,
          Call.crawl rp.getSearchPathFromEnv.2 (force_of c)]) output true
        (hl ▸ n1) (hl ▸ n2) (hl ▸ n3) (hl ▸ n4)
      refine ⟨e1, e2, ?_⟩
      rw [e3, e4, List.append_assoc, List.append_assoc, erase_lookup]
  · simp [supplied, Locals.supplied, read_options, hpk, size_eq_zero_iff, hn]

/-- C21, samples: inside the directory of `pkg`, `list` is not rejected, and
`find` runs as `find pkg` does. -/
theorem C21_inferred_package_witness :
    (sample_rp_in_pkg Persona.PACKAGE).inStackage.2 = "pkg" ∧
    Call.log_error "invalid option(s) given" ∉
      (rospack_run (sample_rp_in_pkg Persona.PACKAGE) sample_env vm_list "").calls ∧
    (rospack_run (sample_rp_in_pkg Persona.PACKAGE) sample_env vm_find "").output =
      (rospack_run (sample_rp_in_pkg Persona.PACKAGE) sample_env
        (with_package vm_find "pkg") "").output ∧
    (rospack_run (sample_rp_in_pkg Persona.PACKAGE) sample_env (with_package vm_find "pkg")
      "").output = "/ws/pkg\n" :=
  ⟨rfl,
   (C21_inferred_package (sample_rp_in_pkg Persona.PACKAGE) sample_env vm_list "" "list" rfl
      rfl (by decide)).1
      ⟨["list", "list-names", "list-duplicates"], [Persona.PACKAGE, Persona.STACK], [],
        Opt.package :: forbids_all_but_package⟩ (by decide) (by decide) (by decide)
      (by decide),
   ((C21_inferred_package (sample_rp_in_pkg Persona.PACKAGE) sample_env vm_find "" "find" rfl
      rfl (by decide)).2.1 (by decide)).2.1,
   by decide⟩

/-! ## C22 -/

/-- The run reads the option set only through the locals, the quiet flag and the
presence of the package option. -/
theorem run_congr (rp : Rosstackage) (env : Environment) (vm1 vm2 : VariablesMap)
    (output : String) (hl : read_options rp vm1 = read_options rp vm2)
    (hq : vm1.quiet = vm2.quiet) (hp : vm1.package = vm2.package) :
    rospack_run rp env vm1 output = rospack_run rp env vm2 output := by
  simp only [rospack_run, hl, hq, hp]

/-- No block of the dispatch chain reads the local `length`. -/
theorem dispatch_ignores_length (rp : Rosstackage) (env : Environment) (l : Locals)
    (calls : List Call) (output : String) (length : Int) :
    dispatch rp env { l with length := length } calls output =
      dispatch rp env l calls output := rfl

/-- The `help` block does not read the local `length`. -/
theorem help_ignores_length (rp : Rosstackage) (l : Locals) (calls : List Call)
    (output : String) (length : Int) :
    cmd_help rp { l with length := length } calls output = cmd_help rp l calls output := rfl

theorem read_options_empty_length (rp : Rosstackage) (vm : VariablesMap) :
    read_options rp (vm.with_value Opt.length (some "")) =
      { read_options rp (vm.with_value Opt.length none) with length := atoi "" } := rfl

/-- C22, as amended.  An option set in which `target`, `top`, `lang` or `attrib`
is present with the empty string as value gives exactly the run of the option
set without that option, for every command; so does an empty `length` for every
command other than `profile`; and a package option present with an empty value
counts as given: `help`, `profile`, `list`, `list-names` and `list-duplicates`
then fail, reporting `invalid option(s) given` (for `help` always, for the others
when the search path is retrieved). -/
theorem C22_empty_value_is_absent (rp : Rosstackage) (env : Environment)
    (vm : VariablesMap) (output : String) :
    (∀ o ∈ [Opt.target, Opt.top, Opt.lang, Opt.attrib],
      rospack_run rp env (vm.with_value o (some "")) output =
        rospack_run rp env (vm.with_value o none) output) ∧
    (vm.command ≠ some "profile" →
      rospack_run rp env (vm.with_value Opt.length (some "")) output =
        rospack_run rp env (vm.with_value Opt.length none) output) ∧
    (∀ c ∈ ["help", "profile", "list", "list-names", "list-duplicates"],
      vm.command = some c → vm.package = some "" →
      (rospack_run rp env vm output).ret = false ∧
      ((c = "help" ∨ rp.getSearchPathFromEnv.1 = true) →
        (rospack_run rp env vm output).calls.getLast? =
          some (Call.log_error "invalid option(s) given"))) := by
  refine ⟨?_, ?_, ?_⟩
  · intro o ho
    simp only [List.mem_cons, List.mem_singleton, List.mem_nil_iff, or_false] at ho
    rcases ho with rfl | rfl | rfl | rfl <;> exact run_congr rp env _ _ output rfl rfl rfl
  · intro hnp
    have hc1 : (vm.with_value Opt.length (some "")).command = vm.command := rfl
    have hc2 : (vm.with_value Opt.length none).command = vm.command := rfl
    cases hcmd : vm.command with
    | none =>
      rw [run_no_command rp env _ output (Or.inl (hc1.trans hcmd)),
        run_no_command rp env _ output (Or.inl (hc2.trans hcmd))]
      rfl
    | some c =>
      by_cases h0 : c = ""
      · subst h0
        rw [run_no_command rp env _ output (Or.inr (hc1.trans hcmd)),
          run_no_command rp env _ output (Or.inr (hc2.trans hcmd))]
        rfl
      by_cases h1 : c = "help"
      · subst h1
        rw [run_help rp env _ output (hc1.trans hcmd),
          run_help rp env _ output (hc2.trans hcmd), read_options_empty_length,
          help_ignores_length]
        rfl
      have h2 : c ≠ "profile" := fun h => hnp (by rw [hcmd, h])
      rw [run_dispatch rp env _ output c (hc1.trans hcmd) h0 h1 h2,
        run_dispatch rp env _ output c (hc2.trans hcmd) h0 h1 h2, read_options_empty_length,
        dispatch_ignores_length]
      rfl
  · intro c hc hcmd hpk
    have hset : (read_options rp vm).isSet Opt.package = true := by
      rw [isSet_read_options]
      simp [VariablesMap.isSet, hpk]
    simp only [List.mem_cons, List.mem_singleton, List.mem_nil_iff, or_false] at hc
    rcases hc with rfl | rfl | rfl | rfl | rfl
    · rw [run_help rp env vm output hcmd,
        help_invalid rp _ _ output (grammar.get ⟨0, by decide⟩) (by decide) (by decide)
          ⟨Opt.package, by decide, hset⟩]
      exact ⟨rfl, fun _ => by simp [error_exit]⟩
    · rw [run_profile rp env vm output hcmd]
      cases hs : rp.getSearchPathFromEnv.1
      · exact ⟨by simp, fun h => by simp at h⟩
      · rw [if_pos rfl, profile_invalid rp _ _ _ output (grammar.get ⟨1, by decide⟩)
          (by decide) (by decide) ⟨Opt.package, by decide, hset⟩]
        exact ⟨rfl, fun _ => by simp [error_exit]⟩
    all_goals
      rw [run_dispatch rp env vm output _ hcmd (by decide) (by decide) (by decide)]
      cases hs : rp.getSearchPathFromEnv.1
      · exact ⟨by simp, fun h => by simp at h⟩
      · rw [if_pos rfl, dispatch_invalid rp env _ _ output (grammar.get ⟨3, by decide⟩) _
          (by decide) (by decide) (by cases rp.persona <;> decide)
          (command_read_options rp vm _ hcmd) (by decide) (by decide)
          (by intro a ha; cases ha) ⟨Opt.package, by decide, hset⟩]
        exact ⟨rfl, fun _ => by simp [error_exit]⟩

/-- C22, samples: `find pkg` with an empty `target` runs exactly as `find pkg`;
and `list` with an empty package fails. -/
theorem C22_empty_value_is_absent_witness :
    rospack_run (sample_rp Persona.PACKAGE) sample_env
        ((vm_command_pkg "find").with_value Opt.target (some "")) "" =
      rospack_run (sample_rp Persona.PACKAGE) sample_env
        ((vm_command_pkg "find").with_value Opt.target none) "" ∧
    (rospack_run (sample_rp Persona.PACKAGE) sample_env (with_package vm_list "") "").ret
      = false :=
  ⟨(C22_empty_value_is_absent (sample_rp Persona.PACKAGE) sample_env (vm_command_pkg "find")
      "").1 Opt.target (by decide),
   ((C22_empty_value_is_absent (sample_rp Persona.PACKAGE) sample_env
      (with_package vm_list "") "").2.2 "list" (by decide) rfl rfl).1⟩

/-- C22 as stated fails for `profile` and `length`: with the length present and
empty the profile collaborator is asked for `atoi("") = 0` entries, with the
length absent for the default 20. -/
theorem C22_counterexample :
    vm_profile.with_value Opt.length (some "") = vm_profile_empty_length ∧
    vm_profile.with_value Opt.length none = vm_profile ∧
    (rospack_run (sample_rp Persona.PACKAGE) sample_env vm_profile_empty_length "").calls =
      [Call.setQuiet false, Call.inStackage, Call.getSearchPathFromEnv,
        Call.profile ["/ws"] false 0] ∧
    (rospack_run (sample_rp Persona.PACKAGE) sample_env vm_profile "").calls =
      [Call.setQuiet false, Call.inStackage, Call.getSearchPathFromEnv,
        Call.profile ["/ws"] false 20] := by
  decide

/-! ## C23 -/

/-- C23.  `profile` with none of its forbidden options set and the search path
retrieved: the run returns `true` exactly when the profile collaborator returns
`false`; in that case it appends every returned directory string followed by a
newline, and when the collaborator returns `true` the run returns `false` and
leaves `output` as it was. -/
theorem C23_profile_polarity (rp : Rosstackage) (env : Environment) (vm : VariablesMap)
    (output : String) (hcmd : vm.command = some "profile")
    (hforb : ∀ o ∈ [Opt.package, Opt.target, Opt.top, Opt.deps_only, Opt.lang, Opt.attrib],
      vm.isSet o = false)
    (hs : rp.getSearchPathFromEnv.1 = true) :
    ((rospack_run rp env vm output).ret = true ↔
      (rp.profile rp.getSearchPathFromEnv.2 vm.zombie_only (read_options rp vm).length).1
        = false) ∧
    ((rp.profile rp.getSearchPathFromEnv.2 vm.zombie_only (read_options rp vm).length).1
        = false →
      (rospack_run rp env vm output).output =
        output ++ join_each "\n"
          (rp.profile rp.getSearchPathFromEnv.2 vm.zombie_only
            (read_options rp vm).length).2) ∧
    ((rp.profile rp.getSearchPathFromEnv.2 vm.zombie_only (read_options rp vm).length).1
        = true →
      (rospack_run rp env vm output).ret = false ∧
      (rospack_run rp env vm output).output = output) := by
  have hforb2 : ∀ o ∈ [Opt.package, Opt.target, Opt.top, Opt.deps_only, Opt.lang, Opt.attrib],
      (read_options rp vm).isSet o = false :=
    fun o ho => (isSet_read_options rp vm o).trans (hforb o ho)
  have hz : (read_options rp vm).zombie_only = vm.zombie_only := rfl
  rw [run_profile rp env vm output hcmd, hs, if_pos rfl]
  generalize read_options rp vm = l at hforb2 hz
  simp [Locals.isSet, size_eq_zero_iff] at hforb2
  obtain ⟨f1, f2, f3, f4, f5, f6⟩ := hforb2
  cases hr : (rp.profile rp.getSearchPathFromEnv.2 vm.zombie_only l.length).1 <;>
    simp [cmd_profile, f1, f2, f3, f4, f5, f6, size_eq_zero_iff, hz, hr, append_each_eq]

/-- C23, samples: a profile collaborator answering `false` makes the run succeed
with its directories, one answering `true` makes it fail with nothing appended. -/
theorem C23_profile_polarity_witness :
    ((sample_rp Persona.PACKAGE).profile ["/ws"] false 20).1 = false ∧
    rospack_run (sample_rp Persona.PACKAGE) sample_env vm_profile "" =
      ⟨true, "0.01 /ws/pkg\n", [Call.setQuiet false, Call.inStackage,
        Call.getSearchPathFromEnv, Call.profile ["/ws"] false 20]⟩ ∧
    ((sample_rp_failing Persona.PACKAGE).profile ["/ws"] false 20).1 = true ∧
    (rospack_run (sample_rp_failing Persona.PACKAGE) sample_env vm_profile "").ret = false ∧
    (rospack_run (sample_rp_failing Persona.PACKAGE) sample_env vm_profile "").output = "" :=
  ⟨rfl, by decide, rfl,
    ((C23_profile_polarity (sample_rp_failing Persona.PACKAGE) sample_env vm_profile "" rfl
      (by decide) rfl).2.2 rfl).1,
    ((C23_profile_polarity (sample_rp_failing Persona.PACKAGE) sample_env vm_profile "" rfl
      (by decide) rfl).2.2 rfl).2⟩

end rospack
